import Mathlib

/-!
# RGGPU: render targets and the depth-of-field frame driver

A shallow embedding of `src/utils/framebuffer.hpp` (class `Framebuffer`) and of
the parts of `src/04_dof/main.cpp` that drive the frame (key callback, resize
handler, compositing-target setup, frame loop body).

The graphics driver is not part of the program.  It is an oracle: a function
from the history of calls issued so far and the next call to the value that
call returns.  Every call the program issues is appended, with its return
value, to the history, so that the order of calls and their arguments can be
stated and proved.
-/

namespace RGGPU

/-! ## OpenGL constants (values of `glad/glad.h`) -/

def GL_NO_ERROR : Nat := 0
def GL_TEXTURE_2D : Nat := 0x0DE1
def GL_FLOAT : Nat := 0x1406
def GL_DEPTH_COMPONENT : Nat := 0x1902
def GL_RGBA : Nat := 0x1908
def GL_LINEAR : Nat := 0x2601
def GL_TEXTURE_MAG_FILTER : Nat := 0x2800
def GL_TEXTURE_MIN_FILTER : Nat := 0x2801
def GL_COLOR_BUFFER_BIT : Nat := 0x4000
def GL_DEPTH_COMPONENT24 : Nat := 0x81A6
def GL_TEXTURE0 : Nat := 0x84C0
def GL_TEXTURE1 : Nat := 0x84C1
def GL_RGBA16F : Nat := 0x881A
def GL_DRAW_FRAMEBUFFER : Nat := 0x8CA9
def GL_FRAMEBUFFER_COMPLETE : Nat := 0x8CD5
def GL_FRAMEBUFFER_INCOMPLETE_ATTACHMENT : Nat := 0x8CD6
def GL_COLOR_ATTACHMENT0 : Nat := 0x8CE0
def GL_DEPTH_ATTACHMENT : Nat := 0x8D00
def GL_FRAMEBUFFER : Nat := 0x8D40
def GL_TRIANGLES : Nat := 0x0004

/-! ## Driver calls, history, and the monad of driver programs -/

/-- The calls the embedded code issues to code outside the sources.

* `gl...`: OpenGL entry points.
* `createFramebuffer`, `createColorTexture`: helper functions of the repository
  that are not among the sources (`ogl_resource.hpp`, `texture.hpp`); they are
  kept as single calls whose returned object name is chosen by the driver.
* `renderer...`, `camera...`, `window...`: methods of the collaborators
  `Renderer`, `Camera` and `Window`, whose classes are not among the sources;
  they are kept as single calls.
* `cout`, `coutValue`, `cerr`: text written to the standard streams. -/
inductive GLCall where
  | createFramebuffer
  | createColorTexture (width height : Int) (internalFormat : Int) (format type : Nat)
  | glBindFramebuffer (target framebuffer : Nat)
  | glFramebufferTexture2D (target attachment textarget texture : Nat) (level : Int)
  | glCheckFramebufferStatus (target : Nat)
  | glDrawBuffers (n : Nat) (bufs : List Nat)
  | glGetError
  | glGenFramebuffers
  | glGenTextures
  | glBindTexture (target texture : Nat)
  | glTexImage2D (target : Nat) (level : Int) (internalFormat : Int) (width height : Int)
      (border : Int) (format type : Nat)
  | glTexParameteri (target pname : Nat) (param : Int)
  | glClear (mask : Nat)
  | glUseProgram (program : Nat)
  | glGetUniformLocation (program : Nat) (name : String)
  | glUniform1f (location : Nat) (v0 : ℚ)
  | glUniform1i (location : Nat) (v0 : Int)
  | glActiveTexture (texture : Nat)
  | glBindVertexArray (array : Nat)
  | glDrawArrays (mode : Nat) (first count : Int)
  | rendererInitialize (width height : Int)
  | rendererGetColorTexture
  | rendererGetDepthTexture
  | rendererShadowMapPass (sceneIdx : Int)
  | rendererClear
  | rendererGeometryPass (sceneIdx : Int) (mode : String)
  | rendererCompositingPass
  | cameraSetPosition (x y z : ℚ)
  | cameraLookAt (x y z : ℚ)
  | cameraSetAspectRatio (ratio : Nat)
  | cameraNear
  | cameraFar
  | windowAspectRatio
  | cout (text : String)
  | coutValue (text : String) (value : ℚ)
  | cerr (text : String)
  deriving DecidableEq, Repr

/-- One issued call together with the value it returned (`0` for `void`). -/
structure GLEvent where
  call : GLCall
  ret : Nat
  deriving DecidableEq, Repr

/-- The driver: the value returned by a call, given everything issued before. -/
structure Driver where
  respond : List GLEvent → GLCall → Nat

/-- The exception type `OpenGLError`, carrying its message. -/
structure OpenGLError where
  what : String
  deriving DecidableEq, Repr

/-- A driver program: from the history so far to a result or a thrown
`OpenGLError`, and the extended history. -/
def GLM (α : Type) : Type := List GLEvent → Except OpenGLError α × List GLEvent

namespace GLM

def pure {α : Type} (a : α) : GLM α := fun t => (Except.ok a, t)

def bind {α β : Type} (m : GLM α) (f : α → GLM β) : GLM β := fun t =>
  match m t with
  | (Except.ok a, t1) => f a t1
  | (Except.error e, t1) => (Except.error e, t1)

def throw {α : Type} (e : OpenGLError) : GLM α := fun t => (Except.error e, t)

/-- Issue a call that returns a value. -/
def call (d : Driver) (c : GLCall) : GLM Nat := fun t =>
  (Except.ok (d.respond t c), t ++ [⟨c, d.respond t c⟩])

/-- Issue a `void` call. -/
def callVoid (c : GLCall) : GLM Unit := fun t => (Except.ok (), t ++ [⟨c, 0⟩])

/-- Modelled from the spec: a call of a `Renderer` method, whose class is not among
the sources.  Section 7 of the specification lets a failing pass abort the frame by
propagating an error; whether the method fails is the answer of the outside world
(`0`: it returns normally). -/
def callRenderer (d : Driver) (c : GLCall) : GLM Unit := fun t =>
  (if d.respond t c = 0 then Except.ok () else Except.error ⟨"renderer failure"⟩,
   t ++ [⟨c, d.respond t c⟩])

end GLM

instance : Monad GLM where
  pure := GLM.pure
  bind := GLM.bind

/-- Modelled from the spec: the macro `GL_CHECK` of `error_handling.hpp`, which is
not among the sources.  Section 7 of the specification makes any graphics call
that reports a driver error fatal, so the macro issues the wrapped call, asks the
driver for its error flag and throws `OpenGLError` when the flag is set. -/
def GL_CHECK (d : Driver) (c : GLCall) : GLM Unit := do
  GLM.callVoid c
  let e ← GLM.call d GLCall.glGetError
  if e = GL_NO_ERROR then pure () else GLM.throw ⟨"OpenGL error"⟩

/-! ## `framebuffer.hpp` -/

/-- The struct `CADescription`. -/
structure CADescription where
  format : Nat
  type : Nat
  internalFormat : Int
  deriving DecidableEq, Repr

/-- The class `OpenGLResource`: an owned GPU object name. -/
structure OpenGLResource where
  id : Nat
  deriving DecidableEq, Repr

/-- The class `OGLTexture`, built from the resource it takes over. -/
structure OGLTexture where
  resource : OpenGLResource
  deriving DecidableEq, Repr

/-- The data members of `Framebuffer`.  A `std::shared_ptr<OGLTexture>` is an
`Option`: `none` is the null pointer. -/
structure Framebuffer where
  mWidth : Int
  mHeight : Int
  mFramebuffer : OpenGLResource
  mColorAttachmentDescriptions : List CADescription
  mColorAttachments : List (Option OGLTexture)
  mDepthBuffer : OpenGLResource
  mDepthTexture : Option OGLTexture
  deriving DecidableEq, Repr

/-- Conversion of a C++ `int` to `size_t` (64 bit), as the comparison of an
`int` with `std::vector::size()` performs it. -/
def intToSizeT (i : Int) : Nat := (i % 2 ^ 64).toNat

/-- The call `std::vector::resize(n)`: keep the first `n` elements and pad with
value-initialised ones (`fill`). -/
def vectorResize {α : Type} (fill : α) (n : Nat) (v : List α) : List α :=
  v.take n ++ List.replicate (n - v.length) fill

namespace Framebuffer

def bind (d : Driver) (fb : Framebuffer) : GLM Unit :=
  GL_CHECK d (GLCall.glBindFramebuffer GL_DRAW_FRAMEBUFFER fb.mFramebuffer.id)

def unbind (d : Driver) : GLM Unit :=
  GL_CHECK d (GLCall.glBindFramebuffer GL_DRAW_FRAMEBUFFER 0)

def createColorAttachment (d : Driver) (aAttachmentIndex : Nat) (aWidth aHeight : Int)
    (aInternalFormat : Int) (aFormat aType : Nat) : GLM OpenGLResource := do
  let textureID ← GLM.call d (GLCall.createColorTexture aWidth aHeight aInternalFormat aFormat aType)
  GL_CHECK d (GLCall.glFramebufferTexture2D GL_FRAMEBUFFER
    (GL_COLOR_ATTACHMENT0 + aAttachmentIndex) GL_TEXTURE_2D textureID 0)
  pure ⟨textureID⟩

def createDepthTexture (d : Driver) (aWidth aHeight : Int) : GLM OpenGLResource := do
  let textureID ← GLM.call d
    (GLCall.createColorTexture aWidth aHeight GL_DEPTH_COMPONENT24 GL_DEPTH_COMPONENT GL_FLOAT)
  GL_CHECK d (GLCall.glFramebufferTexture2D GL_FRAMEBUFFER GL_DEPTH_ATTACHMENT GL_TEXTURE_2D
    textureID 0)
  pure ⟨textureID⟩

def checkStatus (d : Driver) : GLM Unit := do
  let s ← GLM.call d (GLCall.glCheckFramebufferStatus GL_FRAMEBUFFER)
  if s ≠ GL_FRAMEBUFFER_COMPLETE then GLM.throw ⟨"Framebuffer is not complete!"⟩ else pure ()

/-- The loop `for (int i = 0; i < mColorAttachmentDescriptions.size(); ++i)` of
`init`, entered at counter `i` with `k` iterations left.  The counter is a
natural number: it stays below the descriptor count, and C++ gives the loop a
meaning only while that count fits an `int`. -/
def initLoop (d : Driver) : Nat → Nat → Framebuffer → GLM Framebuffer
  | 0, _, fb => pure fb
  | k + 1, i, fb => do
    let desc := fb.mColorAttachmentDescriptions.getD i ⟨0, 0, 0⟩
    let texture ← createColorAttachment d i fb.mWidth fb.mHeight
      desc.internalFormat desc.format desc.type
    initLoop d k (i + 1)
      { fb with mColorAttachments := fb.mColorAttachments.set i (some ⟨texture⟩) }

def init (d : Driver) (fb : Framebuffer) : GLM Framebuffer := do
  bind d fb
  let fb1 : Framebuffer :=
    { fb with mColorAttachments :=
        vectorResize none fb.mColorAttachmentDescriptions.length fb.mColorAttachments }
  let fb2 ← initLoop d fb1.mColorAttachmentDescriptions.length 0 fb1
  let depth ← createDepthTexture d fb2.mWidth fb2.mHeight
  let fb3 : Framebuffer := { fb2 with mDepthTexture := some ⟨depth⟩ }
  checkStatus d
  unbind d
  pure fb3

/-- The constructor `Framebuffer(aWidth, aHeight, aColorAttachmentDescriptions)`. -/
def construct (d : Driver) (aWidth aHeight : Int)
    (aColorAttachmentDescriptions : List CADescription) : GLM Framebuffer := do
  let fbo ← GLM.call d GLCall.createFramebuffer
  init d
    { mWidth := aWidth
      mHeight := aHeight
      mFramebuffer := ⟨fbo⟩
      mColorAttachmentDescriptions := aColorAttachmentDescriptions
      mColorAttachments := []
      mDepthBuffer := ⟨0⟩
      mDepthTexture := none }

/-- The loop of `setDrawBuffers`, entered at counter `i` with `k` iterations
left: `drawBuffers[i] = GL_COLOR_ATTACHMENT0 + i`.  Counter and entries are natural
numbers: C++ gives the loop a meaning only while `GL_COLOR_ATTACHMENT0 + i` fits an
`int`, and then no value is changed by the conversion to `GLenum`. -/
def setDrawBuffersLoop : Nat → Nat → List Nat → List Nat
  | 0, _, drawBuffers => drawBuffers
  | k + 1, i, drawBuffers =>
    setDrawBuffersLoop k (i + 1) (drawBuffers.set i (GL_COLOR_ATTACHMENT0 + i))

/-- The vector `drawBuffers` that `setDrawBuffers` hands to `glDrawBuffers`. -/
def drawBuffers (fb : Framebuffer) : List Nat :=
  setDrawBuffersLoop fb.mColorAttachmentDescriptions.length 0
    (vectorResize 0 fb.mColorAttachmentDescriptions.length [])

def setDrawBuffers (fb : Framebuffer) : GLM Unit :=
  GLM.callVoid (GLCall.glDrawBuffers (drawBuffers fb).length (drawBuffers fb))

def getColorAttachment (fb : Framebuffer) (aIdx : Int) :
    Except OpenGLError (Option OGLTexture) :=
  if aIdx < 0 ∨ intToSizeT aIdx ≥ fb.mColorAttachments.length then
    Except.error ⟨"Framebuffer - invalid color attachment index."⟩
  else
    Except.ok (fb.mColorAttachments.getD (intToSizeT aIdx) none)

def getDepthTexture (fb : Framebuffer) : Option OGLTexture := fb.mDepthTexture

end Framebuffer

/-- A driver that hands out fresh names, reports no error, reports every
framebuffer complete and lets every renderer method return normally. -/
def okDriver : Driver where
  respond t c :=
    match c with
    | GLCall.glGetError => GL_NO_ERROR
    | GLCall.glCheckFramebufferStatus _ => GL_FRAMEBUFFER_COMPLETE
    | GLCall.rendererInitialize _ _ => 0
    | GLCall.rendererShadowMapPass _ => 0
    | GLCall.rendererClear => 0
    | GLCall.rendererGeometryPass _ _ => 0
    | GLCall.rendererCompositingPass => 0
    | _ => t.length + 1

/-- The driver `okDriver`, except that every framebuffer status check reports an
incomplete attachment. -/
def incompleteDriver : Driver where
  respond t c :=
    match c with
    | GLCall.glCheckFramebufferStatus _ => GL_FRAMEBUFFER_INCOMPLETE_ATTACHMENT
    | _ => okDriver.respond t c

def rgba16f : CADescription := ⟨GL_RGBA, GL_FLOAT, GL_RGBA16F⟩

/-- The target that `construct okDriver 800 600 [rgba16f]` returns from the empty
history. -/
def sampleTarget : Framebuffer where
  mWidth := 800
  mHeight := 600
  mFramebuffer := ⟨1⟩
  mColorAttachmentDescriptions := [rgba16f]
  mColorAttachments := [some ⟨⟨4⟩⟩]
  mDepthBuffer := ⟨0⟩
  mDepthTexture := some ⟨⟨7⟩⟩

/-! ## `04_dof/main.cpp`: configuration and key callback -/

/-- Round a rational to the nearest integer, ties to the even one. -/
def roundHalfEven (q : ℚ) : ℤ :=
  if q - ⌊q⌋ < 1 / 2 then ⌊q⌋
  else if 1 / 2 < q - ⌊q⌋ then ⌊q⌋ + 1
  else if ⌊q⌋ % 2 = 0 then ⌊q⌋ else ⌊q⌋ + 1

/-- The binary exponent at which a `float` holds `q`: that of its leading bit, at
least the subnormal exponent `-126`. -/
def f32Exponent (q : ℚ) : ℤ := max (Int.log 2 |q|) (-126)

/-- Rounding of an exact result to `float` (IEEE 754 binary32, round to nearest,
ties to even, 24 significant bits).  A `float` is represented by the rational it
denotes; results beyond the finite range (`2 ^ 128` and up) have no such
representation and are outside this function's use: the values computed by the
key callback are bounded by 105. -/
def roundF32 (q : ℚ) : ℚ :=
  roundHalfEven (q / 2 ^ (f32Exponent q - 23)) * 2 ^ (f32Exponent q - 23)

/-- The `float` operation `a + b`. -/
def f32Add (a b : ℚ) : ℚ := roundF32 (a + b)

/-- The `float` operation `a - b`. -/
def f32Sub (a b : ℚ) : ℚ := roundF32 (a - b)

/-- The function `glm::max(x, y)`, which is `(x < y) ? y : x`. -/
def glmMax (x y : ℚ) : ℚ := if x < y then y else x

/-- The function `glm::min(x, y)`, which is `(y < x) ? y : x`. -/
def glmMin (x y : ℚ) : ℚ := if y < x then y else x

/-- The struct `Config` with its default member initialisers. -/
structure Config where
  currentSceneIdx : Int := 0
  showSolid : Bool := true
  showWireframe : Bool := false
  useZOffset : Bool := false
  focusDistance : ℚ := 50
  focusRange : ℚ := 10
  debugDepth : Bool := false
  deriving DecidableEq, Repr

/-! GLFW constants (values of `GLFW/glfw3.h`). -/

def GLFW_PRESS : Int := 1
def GLFW_KEY_C : Int := 67
def GLFW_KEY_D : Int := 68
def GLFW_KEY_E : Int := 69
def GLFW_KEY_Q : Int := 81
def GLFW_KEY_Z : Int := 90
def GLFW_KEY_ENTER : Int := 257

/-- The lambda given to `window.setKeyCallback`, acting on the captured `config`
(the captured `camera` is reached through calls). -/
def keyCallback (config : Config) (key action : Int) : GLM Config :=
  if action = GLFW_PRESS then
    if key = GLFW_KEY_ENTER then do
      GLM.callVoid (GLCall.cameraSetPosition 0 (-10) (-50))
      GLM.callVoid (GLCall.cameraLookAt 0 0 0)
      pure config
    else if key = GLFW_KEY_Q then do
      let config := { config with focusDistance := f32Sub config.focusDistance 5 }
      let config := { config with focusDistance := glmMax 5 config.focusDistance }
      GLM.callVoid (GLCall.coutValue "Focus Distance: " config.focusDistance)
      pure config
    else if key = GLFW_KEY_E then do
      let config := { config with focusDistance := f32Add config.focusDistance 5 }
      let config := { config with focusDistance := glmMin 100 config.focusDistance }
      GLM.callVoid (GLCall.coutValue "Focus Distance: " config.focusDistance)
      pure config
    else if key = GLFW_KEY_Z then do
      let config := { config with focusRange := f32Sub config.focusRange 2 }
      let config := { config with focusRange := glmMax 2 config.focusRange }
      GLM.callVoid (GLCall.coutValue "Focus Range: " config.focusRange)
      pure config
    else if key = GLFW_KEY_C then do
      let config := { config with focusRange := f32Add config.focusRange 2 }
      let config := { config with focusRange := glmMin 50 config.focusRange }
      GLM.callVoid (GLCall.coutValue "Focus Range: " config.focusRange)
      pure config
    else if key = GLFW_KEY_D then do
      let config := { config with debugDepth := !config.debugDepth }
      GLM.callVoid (GLCall.cout (if config.debugDepth then "Depth Debug: ON" else "Depth Debug: OFF"))
      pure config
    else pure config
  else pure config

/-- The key callback run on a sequence of `(key, action)` events. -/
def pressKeys : List (Int × Int) → Config → GLM Config
  | [], config => pure config
  | (key, action) :: rest, config => do
    let config ← keyCallback config key action
    pressKeys rest config

/-! ## `04_dof/main.cpp`: compositing target, resize handler, frame loop -/

/-- The locals of `main` that the frame loop body captures. -/
structure DofResources where
  dofProgram : Nat
  fullscreenQuadVAO : Nat
  compositingFBO : Nat
  compositingColorTex : Nat
  colorTexture : Nat
  depthTexture : Nat
  deriving DecidableEq, Repr

/-- The lambda given to `window.onResize`. -/
def onResize (d : Driver) (width height : Int) : GLM Unit := do
  let ratio ← GLM.call d GLCall.windowAspectRatio
  GLM.callVoid (GLCall.cameraSetAspectRatio ratio)
  GLM.callRenderer d (GLCall.rendererInitialize width height)

/-- The statements of `main` from the creation of the compositing framebuffer up
to the call of `window.runLoop`.  `windowSize` is the value of `window.size()`;
`dofProgram` and `fullscreenQuadVAO` were created just before. -/
def setupCompositing (d : Driver) (windowSize : Int × Int) (dofProgram fullscreenQuadVAO : Nat) :
    GLM DofResources := do
  let compositingFBO ← GLM.call d GLCall.glGenFramebuffers
  let compositingColorTex ← GLM.call d GLCall.glGenTextures
  GLM.callVoid (GLCall.glBindTexture GL_TEXTURE_2D compositingColorTex)
  GLM.callVoid (GLCall.glTexImage2D GL_TEXTURE_2D 0 GL_RGBA16F windowSize.1 windowSize.2 0
    GL_RGBA GL_FLOAT)
  GLM.callVoid (GLCall.glTexParameteri GL_TEXTURE_2D GL_TEXTURE_MIN_FILTER GL_LINEAR)
  GLM.callVoid (GLCall.glTexParameteri GL_TEXTURE_2D GL_TEXTURE_MAG_FILTER GL_LINEAR)
  GLM.callVoid (GLCall.glBindFramebuffer GL_FRAMEBUFFER compositingFBO)
  GLM.callVoid (GLCall.glFramebufferTexture2D GL_FRAMEBUFFER GL_COLOR_ATTACHMENT0 GL_TEXTURE_2D
    compositingColorTex 0)
  let status ← GLM.call d (GLCall.glCheckFramebufferStatus GL_FRAMEBUFFER)
  if status ≠ GL_FRAMEBUFFER_COMPLETE then
    GLM.callVoid (GLCall.cerr "Compositing FBO not complete!")
  GLM.callVoid (GLCall.glBindFramebuffer GL_FRAMEBUFFER 0)
  GLM.callRenderer d (GLCall.rendererInitialize windowSize.1 windowSize.2)
  let colorTexture ← GLM.call d GLCall.rendererGetColorTexture
  let depthTexture ← GLM.call d GLCall.rendererGetDepthTexture
  pure ⟨dofProgram, fullscreenQuadVAO, compositingFBO, compositingColorTex, colorTexture,
    depthTexture⟩

/-- The method `FullscreenQuad::draw`. -/
def fullscreenQuadDraw (vao : Nat) : GLM Unit := do
  GLM.callVoid (GLCall.glBindVertexArray vao)
  GLM.callVoid (GLCall.glDrawArrays GL_TRIANGLES 0 3)

/-- The statement `glUniform1f(glGetUniformLocation(program, name), value)`. -/
def setUniform1f (d : Driver) (program : Nat) (name : String) (value : ℚ) : GLM Unit := do
  let location ← GLM.call d (GLCall.glGetUniformLocation program name)
  GLM.callVoid (GLCall.glUniform1f location value)

/-- The statement `glUniform1i(glGetUniformLocation(program, name), value)`. -/
def setUniform1i (d : Driver) (program : Nat) (name : String) (value : Int) : GLM Unit := do
  let location ← GLM.call d (GLCall.glGetUniformLocation program name)
  GLM.callVoid (GLCall.glUniform1i location value)

/-- The lambda given to `window.runLoop`: one frame.  Where C++ leaves the order
of two argument evaluations open (`camera.near()` against the uniform lookup), the
camera is asked first. -/
def frameBody (d : Driver) (res : DofResources) (config : Config) : GLM Unit := do
  -- 1. Shadow map pass
  GLM.callRenderer d (GLCall.rendererShadowMapPass config.currentSceneIdx)
  -- 2. Geometry pass
  GLM.callRenderer d GLCall.rendererClear
  GLM.callRenderer d (GLCall.rendererGeometryPass config.currentSceneIdx "solid")
  -- 3. Compositing pass, rendered to texture
  GLM.callVoid (GLCall.glBindFramebuffer GL_FRAMEBUFFER res.compositingFBO)
  GLM.callVoid (GLCall.glClear GL_COLOR_BUFFER_BIT)
  GLM.callRenderer d GLCall.rendererCompositingPass
  -- 4. DoF pass, rendered to screen
  GLM.callVoid (GLCall.glBindFramebuffer GL_FRAMEBUFFER 0)
  GLM.callVoid (GLCall.glClear GL_COLOR_BUFFER_BIT)
  GLM.callVoid (GLCall.glUseProgram res.dofProgram)
  setUniform1f d res.dofProgram "focus_distance" config.focusDistance
  setUniform1f d res.dofProgram "focus_range" config.focusRange
  let near ← GLM.call d GLCall.cameraNear
  setUniform1f d res.dofProgram "near_plane" near
  let far ← GLM.call d GLCall.cameraFar
  setUniform1f d res.dofProgram "far_plane" far
  setUniform1i d res.dofProgram "debug_depth" (if config.debugDepth then 1 else 0)
  setUniform1i d res.dofProgram "color_texture" 0
  setUniform1i d res.dofProgram "depth_texture" 1
  GLM.callVoid (GLCall.glActiveTexture GL_TEXTURE0)
  GLM.callVoid (GLCall.glBindTexture GL_TEXTURE_2D res.compositingColorTex)
  GLM.callVoid (GLCall.glActiveTexture GL_TEXTURE1)
  GLM.callVoid (GLCall.glBindTexture GL_TEXTURE_2D res.depthTexture)
  fullscreenQuadDraw res.fullscreenQuadVAO

/-- Modelled from the spec: `window.runLoop` (class `Window` is not among the
sources) invokes the loop body once per frame; `frames` is the number of frames
until the window is closed. -/
def runLoop (body : GLM Unit) : Nat → GLM Unit
  | 0 => pure ()
  | frames + 1 => do
    body
    runLoop body frames

/-- The part of `main` from the compositing framebuffer to the end of the frame
loop. -/
def mainFromCompositing (d : Driver) (windowSize : Int × Int)
    (dofProgram fullscreenQuadVAO : Nat) (config : Config) (frames : Nat) : GLM Unit := do
  let res ← setupCompositing d windowSize dofProgram fullscreenQuadVAO
  runLoop (frameBody d res config) frames

/-! ## Reading a history -/

/-- The four passes of a frame. -/
inductive Pass where
  | shadow
  | geometry
  | composite
  | dof
  deriving DecidableEq, Repr

/-- The pass a call draws, if it draws one: the three renderer passes, and the
draw call of the fullscreen triangle. -/
def passOf : GLCall → Option Pass
  | GLCall.rendererShadowMapPass _ => some Pass.shadow
  | GLCall.rendererGeometryPass _ _ => some Pass.geometry
  | GLCall.rendererCompositingPass => some Pass.composite
  | GLCall.glDrawArrays _ _ _ => some Pass.dof
  | _ => none

/-- The framebuffer bound as draw destination after a call, `none` when it is not
known: a renderer method may bind framebuffers of its own. -/
def drawTargetAfter (bound : Option Nat) : GLCall → Option Nat
  | GLCall.glBindFramebuffer target framebuffer =>
    if target = GL_FRAMEBUFFER ∨ target = GL_DRAW_FRAMEBUFFER then some framebuffer else bound
  | GLCall.rendererInitialize _ _ => none
  | GLCall.rendererShadowMapPass _ => none
  | GLCall.rendererClear => none
  | GLCall.rendererGeometryPass _ _ => none
  | GLCall.rendererCompositingPass => none
  | _ => bound

/-- The passes drawn by a list of events, in order, each with the draw
destination bound when it was issued; `bound` is the destination at the start. -/
def passLog (bound : Option Nat) : List GLEvent → List (Pass × Option Nat)
  | [] => []
  | e :: es =>
    match passOf e.call with
    | some p => (p, bound) :: passLog (drawTargetAfter bound e.call) es
    | none => passLog (drawTargetAfter bound e.call) es

/-- The 2D texture binding and the storage size of each texture name after a
call.  A renderer method may change the binding; it allocates textures of its
own and has no access to the names held by `main`. -/
def textureStep (st : Option Nat × List (Nat × (Int × Int))) :
    GLCall → Option Nat × List (Nat × (Int × Int))
  | GLCall.glBindTexture target texture =>
    if target = GL_TEXTURE_2D then (some texture, st.2) else st
  | GLCall.glTexImage2D target level _ width height _ _ _ =>
    if target = GL_TEXTURE_2D ∧ level = 0 then
      match st.1 with
      | some texture => (st.1, (texture, (width, height)) :: st.2)
      | none => st
    else st
  | GLCall.rendererInitialize _ _ => (none, st.2)
  | GLCall.rendererShadowMapPass _ => (none, st.2)
  | GLCall.rendererClear => (none, st.2)
  | GLCall.rendererGeometryPass _ _ => (none, st.2)
  | GLCall.rendererCompositingPass => (none, st.2)
  | _ => st

/-- The size of the storage of texture `texture` after history `t`, if it has any. -/
def textureSize (texture : Nat) (t : List GLEvent) : Option (Int × Int) :=
  ((t.foldl (fun st e => textureStep st e.call) (none, [])).2.lookup texture)

/-! ## Predicates on histories used in the statements -/

/-- The focus parameters are whole numbers inside their ranges: the focus
distance in `[5, 100]`, the focus range in `[2, 50]`. -/
def FocusInv (config : Config) : Prop :=
  (∃ n : ℤ, config.focusDistance = n ∧ 5 ≤ n ∧ n ≤ 100) ∧
  (∃ m : ℤ, config.focusRange = m ∧ 2 ≤ m ∧ m ≤ 50)

/-- No renderer method fails, whatever has been issued before. -/
def RendererReturns (d : Driver) : Prop :=
  ∀ t, (∀ i, d.respond t (GLCall.rendererShadowMapPass i) = 0) ∧
    d.respond t GLCall.rendererClear = 0 ∧
    (∀ i mode, d.respond t (GLCall.rendererGeometryPass i mode) = 0) ∧
    d.respond t GLCall.rendererCompositingPass = 0 ∧
    (∀ w h, d.respond t (GLCall.rendererInitialize w h) = 0)

/-- The events a run started from history `t` has added to it. -/
def issued {α : Type} (t : List GLEvent) (run : Except OpenGLError α × List GLEvent) :
    List GLEvent :=
  run.2.drop t.length

/-- An event that `init` may issue before its status check: a texture creation
only with the target's size, and never a status check. -/
def InitStep (w h : Int) (e : GLEvent) : Prop :=
  (∀ w1 h1 f g ty, e.call = GLCall.createColorTexture w1 h1 f g ty → w1 = w ∧ h1 = h) ∧
  (∀ x, e.call ≠ GLCall.glCheckFramebufferStatus x)

/-- Every colour attachment point and the depth attachment point have had a
texture attached among the events `pre`. -/
def AllAttached (n : Nat) (pre : List GLEvent) : Prop :=
  (∀ j, j < n → ∃ tex, (⟨GLCall.glFramebufferTexture2D GL_FRAMEBUFFER (GL_COLOR_ATTACHMENT0 + j)
      GL_TEXTURE_2D tex 0, 0⟩ : GLEvent) ∈ pre) ∧
  (∃ tex, (⟨GLCall.glFramebufferTexture2D GL_FRAMEBUFFER GL_DEPTH_ATTACHMENT GL_TEXTURE_2D
      tex 0, 0⟩ : GLEvent) ∈ pre)

/-- What a finished run of the attachment loop over `[i, i + k)` has done. -/
def LoopPost (k i : Nat) (fb fb1 : Framebuffer) (new : List GLEvent) : Prop :=
  fb1.mWidth = fb.mWidth ∧ fb1.mHeight = fb.mHeight ∧ fb1.mFramebuffer = fb.mFramebuffer ∧
  fb1.mColorAttachmentDescriptions = fb.mColorAttachmentDescriptions ∧
  fb1.mDepthBuffer = fb.mDepthBuffer ∧ fb1.mDepthTexture = fb.mDepthTexture ∧
  fb1.mColorAttachments.length = fb.mColorAttachments.length ∧
  (∀ j, j < i → fb1.mColorAttachments[j]? = fb.mColorAttachments[j]?) ∧
  (∀ j, i ≤ j → j < i + k → j < fb.mColorAttachments.length →
    ∃ id, fb1.mColorAttachments[j]? = some (some ⟨⟨id⟩⟩) ∧
      (⟨GLCall.createColorTexture fb.mWidth fb.mHeight
          (fb.mColorAttachmentDescriptions.getD j ⟨0, 0, 0⟩).internalFormat
          (fb.mColorAttachmentDescriptions.getD j ⟨0, 0, 0⟩).format
          (fb.mColorAttachmentDescriptions.getD j ⟨0, 0, 0⟩).type, id⟩ : GLEvent) ∈ new ∧
      (⟨GLCall.glFramebufferTexture2D GL_FRAMEBUFFER (GL_COLOR_ATTACHMENT0 + j) GL_TEXTURE_2D
          id 0, 0⟩ : GLEvent) ∈ new)

/-- The object a successful `init` leaves, relative to the events `pre` issued
before the status check. -/
def InitPost (fb fb1 : Framebuffer) (pre : List GLEvent) : Prop :=
  fb1.mWidth = fb.mWidth ∧ fb1.mHeight = fb.mHeight ∧
  fb1.mColorAttachmentDescriptions = fb.mColorAttachmentDescriptions ∧
  fb1.mColorAttachments.length = fb.mColorAttachmentDescriptions.length ∧
  (∀ j, j < fb.mColorAttachmentDescriptions.length →
    ∃ id, fb1.mColorAttachments[j]? = some (some ⟨⟨id⟩⟩) ∧
      (⟨GLCall.createColorTexture fb.mWidth fb.mHeight
          (fb.mColorAttachmentDescriptions.getD j ⟨0, 0, 0⟩).internalFormat
          (fb.mColorAttachmentDescriptions.getD j ⟨0, 0, 0⟩).format
          (fb.mColorAttachmentDescriptions.getD j ⟨0, 0, 0⟩).type, id⟩ : GLEvent) ∈ pre) ∧
  (∃ id, fb1.mDepthTexture = some ⟨⟨id⟩⟩ ∧
    (⟨GLCall.createColorTexture fb.mWidth fb.mHeight GL_DEPTH_COMPONENT24 GL_DEPTH_COMPONENT
        GL_FLOAT, id⟩ : GLEvent) ∈ pre)

/-- The two ways a run of `init` from history `t` can go: it throws before the
status check, or it reaches the check with every attachment made. -/
def InitOutcome (d : Driver) (fb : Framebuffer) (t : List GLEvent)
    (run : Except OpenGLError Framebuffer × List GLEvent) (pre : List GLEvent) : Prop :=
  (run.2 = t ++ pre ∧ (∃ err, run.1 = Except.error err) ∧
      ¬ (∀ t1, d.respond t1 GLCall.glGetError = GL_NO_ERROR)) ∨
  (∃ s post, run.2 = t ++ pre ++ ⟨GLCall.glCheckFramebufferStatus GL_FRAMEBUFFER, s⟩ :: post ∧
      (∀ e ∈ post, InitStep fb.mWidth fb.mHeight e) ∧
      s = d.respond (t ++ pre) (GLCall.glCheckFramebufferStatus GL_FRAMEBUFFER) ∧
      AllAttached fb.mColorAttachmentDescriptions.length pre ∧
      (s ≠ GL_FRAMEBUFFER_COMPLETE → run.1 = Except.error ⟨"Framebuffer is not complete!"⟩) ∧
      (∀ fb1, run.1 = Except.ok fb1 → s = GL_FRAMEBUFFER_COMPLETE ∧ InitPost fb fb1 pre) ∧
      ((∀ t1, d.respond t1 GLCall.glGetError = GL_NO_ERROR) → s = GL_FRAMEBUFFER_COMPLETE →
        ∃ fb1, run.1 = Except.ok fb1))

/-! ## Running driver programs -/

theorem GLM.run_pure {α : Type} (a : α) (t : List GLEvent) :
    (Pure.pure a : GLM α) t = (Except.ok a, t) := rfl

theorem GLM.run_bind {α β : Type} (m : GLM α) (f : α → GLM β) (t : List GLEvent) :
    (m >>= f) t =
      match m t with
      | (Except.ok a, t1) => f a t1
      | (Except.error e, t1) => (Except.error e, t1) := rfl

theorem GLM.run_call (d : Driver) (c : GLCall) (t : List GLEvent) :
    GLM.call d c t = (Except.ok (d.respond t c), t ++ [⟨c, d.respond t c⟩]) := rfl

/-- Closed form of a checked call: the history always grows by the call and the
error query; the result is decided by the error flag. -/
theorem GL_CHECK_run (d : Driver) (c : GLCall) (t : List GLEvent) :
    GL_CHECK d c t =
      (if d.respond (t ++ [⟨c, 0⟩]) GLCall.glGetError = GL_NO_ERROR then Except.ok ()
        else Except.error ⟨"OpenGL error"⟩,
       t ++ [⟨c, 0⟩, ⟨GLCall.glGetError, d.respond (t ++ [⟨c, 0⟩]) GLCall.glGetError⟩]) := by
  unfold GL_CHECK
  simp only [GLM.run_bind, GLM.callVoid, GLM.run_call]
  by_cases h : d.respond (t ++ [⟨c, 0⟩]) GLCall.glGetError = GL_NO_ERROR
  · simp [h, GLM.run_pure]
  · simp [h, GLM.throw]

theorem initStep_create (w h f : Int) (g ty id : Nat) :
    InitStep w h ⟨GLCall.createColorTexture w h f g ty, id⟩ :=
  And.intro
    (by intro w1 h1 f1 g1 ty1 hc; simp only [GLCall.createColorTexture.injEq] at hc
        exact ⟨hc.1.symm, hc.2.1.symm⟩)
    (by intro x hc; cases hc)

theorem initStep_attach (w h : Int) (a b c tex r : Nat) (l : Int) :
    InitStep w h ⟨GLCall.glFramebufferTexture2D a b c tex l, r⟩ :=
  And.intro (by intro w1 h1 f1 g1 ty1 hc; cases hc) (by intro x hc; cases hc)

theorem initStep_getError (w h : Int) (r : Nat) : InitStep w h ⟨GLCall.glGetError, r⟩ :=
  And.intro (by intro w1 h1 f1 g1 ty1 hc; cases hc) (by intro x hc; cases hc)

theorem initStep_bind (w h : Int) (a b r : Nat) :
    InitStep w h ⟨GLCall.glBindFramebuffer a b, r⟩ :=
  And.intro (by intro w1 h1 f1 g1 ty1 hc; cases hc) (by intro x hc; cases hc)

theorem initStep_createFramebuffer (w h : Int) (r : Nat) :
    InitStep w h ⟨GLCall.createFramebuffer, r⟩ :=
  And.intro (by intro w1 h1 f1 g1 ty1 hc; cases hc) (by intro x hc; cases hc)

/-- A checked call adds the call and the error query; it succeeds when the
driver reports no error. -/
theorem GL_CHECK_spec (d : Driver) (c : GLCall) (t : List GLEvent) :
    ∃ steps, (GL_CHECK d c t).2 = t ++ steps ∧
      (∀ e ∈ steps, e = ⟨c, 0⟩ ∨ ∃ r, e = ⟨GLCall.glGetError, r⟩) ∧
      ((∀ t1, d.respond t1 GLCall.glGetError = GL_NO_ERROR) → (GL_CHECK d c t).1 = Except.ok ()) := by
  refine ⟨[⟨c, 0⟩, ⟨GLCall.glGetError, d.respond (t ++ [⟨c, 0⟩]) GLCall.glGetError⟩],
    by rw [GL_CHECK_run], ?_, ?_⟩
  · intro e he
    simp only [List.mem_cons, List.mem_singleton, List.not_mem_nil, or_false] at he
    rcases he with rfl | rfl
    · exact Or.inl rfl
    · exact Or.inr ⟨_, rfl⟩
  · intro hno
    rw [GL_CHECK_run, if_pos (hno _)]

/-- The events of a checked framebuffer binding are steps of `init`. -/
theorem GL_CHECK_bind_steps (w h : Int) (a b : Nat) (steps : List GLEvent)
    (hs : ∀ e ∈ steps, e = ⟨GLCall.glBindFramebuffer a b, 0⟩ ∨ ∃ r, e = ⟨GLCall.glGetError, r⟩) :
    ∀ e ∈ steps, InitStep w h e := by
  intro e he
  rcases hs e he with rfl | ⟨r, rfl⟩
  · exact initStep_bind _ _ _ _ _
  · exact initStep_getError _ _ _

/-- One attachment step: the events it adds and its result. -/
theorem createColorAttachment_run (d : Driver) (i : Nat) (w h f : Int) (g ty : Nat)
    (t : List GLEvent) :
    ∃ steps id, (Framebuffer.createColorAttachment d i w h f g ty t).2 = t ++ steps ∧
      (∀ e ∈ steps, InitStep w h e) ∧
      (⟨GLCall.createColorTexture w h f g ty, id⟩ : GLEvent) ∈ steps ∧
      (⟨GLCall.glFramebufferTexture2D GL_FRAMEBUFFER (GL_COLOR_ATTACHMENT0 + i) GL_TEXTURE_2D
          id 0, 0⟩ : GLEvent) ∈ steps ∧
      (∀ r, (Framebuffer.createColorAttachment d i w h f g ty t).1 = Except.ok r → r = ⟨id⟩) ∧
      ((∀ t1, d.respond t1 GLCall.glGetError = GL_NO_ERROR) →
        (Framebuffer.createColorAttachment d i w h f g ty t).1 = Except.ok ⟨id⟩) := by
  refine ⟨[⟨GLCall.createColorTexture w h f g ty, d.respond t (GLCall.createColorTexture w h f g ty)⟩,
      ⟨GLCall.glFramebufferTexture2D GL_FRAMEBUFFER (GL_COLOR_ATTACHMENT0 + i) GL_TEXTURE_2D
        (d.respond t (GLCall.createColorTexture w h f g ty)) 0, 0⟩,
      ⟨GLCall.glGetError, d.respond (t ++
        [⟨GLCall.createColorTexture w h f g ty, d.respond t (GLCall.createColorTexture w h f g ty)⟩,
        ⟨GLCall.glFramebufferTexture2D GL_FRAMEBUFFER (GL_COLOR_ATTACHMENT0 + i) GL_TEXTURE_2D
          (d.respond t (GLCall.createColorTexture w h f g ty)) 0, 0⟩]) GLCall.glGetError⟩],
    d.respond t (GLCall.createColorTexture w h f g ty), ?_, ?_, by simp, by simp, ?_, ?_⟩
  · unfold Framebuffer.createColorAttachment
    simp only [GLM.run_bind, GLM.run_call, GL_CHECK_run, List.append_assoc, List.singleton_append,
      List.cons_append, List.nil_append]
    split_ifs <;> simp [GLM.run_pure]
  · intro e1 he1
    simp only [List.mem_cons, List.mem_singleton, List.not_mem_nil, or_false] at he1
    rcases he1 with rfl | rfl | rfl
    · exact initStep_create _ _ _ _ _ _
    · exact initStep_attach _ _ _ _ _ _ _ _
    · exact initStep_getError _ _ _
  · intro r
    unfold Framebuffer.createColorAttachment
    simp only [GLM.run_bind, GLM.run_call, GL_CHECK_run, List.append_assoc, List.singleton_append,
      List.cons_append, List.nil_append]
    split_ifs <;> simp [GLM.run_pure]
    intro h; exact h.symm
  · intro hno
    unfold Framebuffer.createColorAttachment
    simp only [GLM.run_bind, GLM.run_call, GL_CHECK_run, List.append_assoc, List.singleton_append,
      List.cons_append, List.nil_append]
    rw [if_pos (hno _)]
    simp [GLM.run_pure]

theorem initLoop_spec (d : Driver) :
    ∀ (k i : Nat) (fb : Framebuffer) (t : List GLEvent),
      ∃ new, (Framebuffer.initLoop d k i fb t).2 = t ++ new ∧
        (∀ e ∈ new, InitStep fb.mWidth fb.mHeight e) ∧
        (∀ fb1, (Framebuffer.initLoop d k i fb t).1 = Except.ok fb1 → LoopPost k i fb fb1 new) ∧
        ((∀ t1, d.respond t1 GLCall.glGetError = GL_NO_ERROR) →
          ∃ fb1, (Framebuffer.initLoop d k i fb t).1 = Except.ok fb1) := by
  intro k
  induction k with
  | zero =>
    intro i fb t
    refine ⟨[], by simp [Framebuffer.initLoop, GLM.run_pure], by simp, ?_, fun _ => ⟨fb, rfl⟩⟩
    intro fb1 h
    simp only [Framebuffer.initLoop, GLM.run_pure, Except.ok.injEq] at h
    subst h
    refine ⟨rfl, rfl, rfl, rfl, rfl, rfl, rfl, fun _ _ => rfl, ?_⟩
    intro j h1 h2
    omega
  | succ k ih =>
    intro i fb t
    obtain ⟨steps, id, ht1, hsteps, hcreate, hattach, hok, hnoerr⟩ :=
      createColorAttachment_run d i fb.mWidth fb.mHeight
        (fb.mColorAttachmentDescriptions.getD i ⟨0, 0, 0⟩).internalFormat
        (fb.mColorAttachmentDescriptions.getD i ⟨0, 0, 0⟩).format
        (fb.mColorAttachmentDescriptions.getD i ⟨0, 0, 0⟩).type t
    rw [Framebuffer.initLoop, GLM.run_bind]
    rcases hrun : Framebuffer.createColorAttachment d i fb.mWidth fb.mHeight
      (fb.mColorAttachmentDescriptions.getD i ⟨0, 0, 0⟩).internalFormat
      (fb.mColorAttachmentDescriptions.getD i ⟨0, 0, 0⟩).format
      (fb.mColorAttachmentDescriptions.getD i ⟨0, 0, 0⟩).type t with ⟨r, t1⟩
    rw [hrun] at ht1 hok hnoerr
    simp only at ht1 hok hnoerr
    cases r with
    | error err =>
      refine ⟨steps, ht1, hsteps, ?_, ?_⟩
      · intro fb1 h
        cases h
      · intro hno
        cases hnoerr hno
    | ok texture =>
      have htex := hok texture rfl
      subst htex
      simp only
      obtain ⟨new, hnew, hstep, hpost, hsucc⟩ := ih (i + 1)
        { fb with mColorAttachments := fb.mColorAttachments.set i (some ⟨⟨id⟩⟩) } t1
      refine ⟨steps ++ new, ?_, ?_, ?_, hsucc⟩
      · rw [hnew, ht1, List.append_assoc]
      · intro e1 he1
        rcases List.mem_append.mp he1 with h | h
        · exact hsteps e1 h
        · exact hstep e1 h
      · intro fb1 hfb1
        obtain ⟨p1, p2, p3, p4, p5, p6, p7, p8, p9⟩ := hpost fb1 hfb1
        simp only [List.length_set] at p7 p9
        refine ⟨p1, p2, p3, p4, p5, p6, p7, ?_, ?_⟩
        · intro j hj
          rw [p8 j (by omega), List.getElem?_set_ne (by omega)]
        · intro j h1 h2 h3
          rcases Nat.eq_or_lt_of_le h1 with rfl | hlt
          · refine ⟨id, ?_, List.mem_append_left _ hcreate, List.mem_append_left _ hattach⟩
            rw [p8 i (by omega), List.getElem?_set_self h3]
          · obtain ⟨id1, q1, q2, q3⟩ := p9 j (by omega) (by omega) h3
            exact ⟨id1, q1, List.mem_append_right _ q2, List.mem_append_right _ q3⟩

theorem vectorResize_length {α : Type} (fill : α) (n : Nat) (v : List α) :
    (vectorResize fill n v).length = n := by
  simp only [vectorResize, List.length_append, List.length_take, List.length_replicate]
  omega

/-- The depth attachment step: the events it adds and its result. -/
theorem createDepthTexture_run (d : Driver) (w h : Int) (t : List GLEvent) :
    ∃ steps id, (Framebuffer.createDepthTexture d w h t).2 = t ++ steps ∧
      (∀ e ∈ steps, InitStep w h e) ∧
      (⟨GLCall.createColorTexture w h GL_DEPTH_COMPONENT24 GL_DEPTH_COMPONENT GL_FLOAT, id⟩ :
        GLEvent) ∈ steps ∧
      (⟨GLCall.glFramebufferTexture2D GL_FRAMEBUFFER GL_DEPTH_ATTACHMENT GL_TEXTURE_2D
          id 0, 0⟩ : GLEvent) ∈ steps ∧
      (∀ r, (Framebuffer.createDepthTexture d w h t).1 = Except.ok r → r = ⟨id⟩) ∧
      ((∀ t1, d.respond t1 GLCall.glGetError = GL_NO_ERROR) →
        (Framebuffer.createDepthTexture d w h t).1 = Except.ok ⟨id⟩) := by
  refine ⟨[⟨GLCall.createColorTexture w h GL_DEPTH_COMPONENT24 GL_DEPTH_COMPONENT GL_FLOAT,
        d.respond t (GLCall.createColorTexture w h GL_DEPTH_COMPONENT24 GL_DEPTH_COMPONENT GL_FLOAT)⟩,
      ⟨GLCall.glFramebufferTexture2D GL_FRAMEBUFFER GL_DEPTH_ATTACHMENT GL_TEXTURE_2D
        (d.respond t (GLCall.createColorTexture w h GL_DEPTH_COMPONENT24 GL_DEPTH_COMPONENT
          GL_FLOAT)) 0, 0⟩,
      ⟨GLCall.glGetError, d.respond (t ++
        [⟨GLCall.createColorTexture w h GL_DEPTH_COMPONENT24 GL_DEPTH_COMPONENT GL_FLOAT,
          d.respond t (GLCall.createColorTexture w h GL_DEPTH_COMPONENT24 GL_DEPTH_COMPONENT
            GL_FLOAT)⟩,
        ⟨GLCall.glFramebufferTexture2D GL_FRAMEBUFFER GL_DEPTH_ATTACHMENT GL_TEXTURE_2D
          (d.respond t (GLCall.createColorTexture w h GL_DEPTH_COMPONENT24 GL_DEPTH_COMPONENT
            GL_FLOAT)) 0, 0⟩]) GLCall.glGetError⟩],
    d.respond t (GLCall.createColorTexture w h GL_DEPTH_COMPONENT24 GL_DEPTH_COMPONENT GL_FLOAT),
    ?_, ?_, by simp, by simp, ?_, ?_⟩
  · unfold Framebuffer.createDepthTexture
    simp only [GLM.run_bind, GLM.run_call, GL_CHECK_run, List.append_assoc, List.singleton_append,
      List.cons_append, List.nil_append]
    split_ifs <;> simp [GLM.run_pure]
  · intro e1 he1
    simp only [List.mem_cons, List.mem_singleton, List.not_mem_nil, or_false] at he1
    rcases he1 with rfl | rfl | rfl
    · exact initStep_create _ _ _ _ _ _
    · exact initStep_attach _ _ _ _ _ _ _ _
    · exact initStep_getError _ _ _
  · intro r
    unfold Framebuffer.createDepthTexture
    simp only [GLM.run_bind, GLM.run_call, GL_CHECK_run, List.append_assoc, List.singleton_append,
      List.cons_append, List.nil_append]
    split_ifs <;> simp [GLM.run_pure]
    intro h; exact h.symm
  · intro hno
    unfold Framebuffer.createDepthTexture
    simp only [GLM.run_bind, GLM.run_call, GL_CHECK_run, List.append_assoc, List.singleton_append,
      List.cons_append, List.nil_append]
    rw [if_pos (hno _)]
    simp [GLM.run_pure]

theorem init_spec (d : Driver) (fb : Framebuffer) (t : List GLEvent) :
    ∃ pre, (∀ e ∈ pre, InitStep fb.mWidth fb.mHeight e) ∧
      InitOutcome d fb t (Framebuffer.init d fb t) pre := by
  obtain ⟨bsteps, hb1, hb0, hb2⟩ :=
    GL_CHECK_spec d (GLCall.glBindFramebuffer GL_DRAW_FRAMEBUFFER fb.mFramebuffer.id) t
  have hbsteps := GL_CHECK_bind_steps fb.mWidth fb.mHeight _ _ bsteps hb0
  unfold Framebuffer.init
  rw [GLM.run_bind]
  unfold Framebuffer.bind
  rcases hrun1 : GL_CHECK d (GLCall.glBindFramebuffer GL_DRAW_FRAMEBUFFER fb.mFramebuffer.id) t
    with ⟨r1, t1⟩
  rw [hrun1] at hb1 hb2
  simp only at hb1 hb2
  cases r1 with
  | error err =>
    exact ⟨bsteps, hbsteps, Or.inl ⟨hb1, ⟨err, rfl⟩, fun hno => by cases hb2 hno⟩⟩
  | ok u =>
    obtain ⟨new, hnew, hstep, hpost, hsucc⟩ := initLoop_spec d
      fb.mColorAttachmentDescriptions.length 0
      { fb with mColorAttachments :=
          vectorResize none fb.mColorAttachmentDescriptions.length fb.mColorAttachments } t1
    simp only
    rw [GLM.run_bind]
    rcases hrun2 : Framebuffer.initLoop d fb.mColorAttachmentDescriptions.length 0
      { fb with mColorAttachments :=
          vectorResize none fb.mColorAttachmentDescriptions.length fb.mColorAttachments } t1
      with ⟨r2, t2⟩
    rw [hrun2] at hnew hpost hsucc
    simp only at hnew hstep hpost hsucc
    cases r2 with
    | error err =>
      refine ⟨bsteps ++ new, ?_, Or.inl ⟨?_, ⟨err, rfl⟩, ?_⟩⟩
      · intro e he
        rcases List.mem_append.mp he with h | h
        · exact hbsteps e h
        · exact hstep e h
      · simp only [hnew, hb1, List.append_assoc]
      · intro hno
        obtain ⟨fb1, h⟩ := hsucc hno
        cases h
    | ok fb2 =>
      obtain ⟨p1, p2, p3, p4, p5, p6, p7, p8, p9⟩ := hpost fb2 rfl
      simp only [vectorResize_length] at p7 p9
      simp only at p1 p2 p3 p4 p5 p6
      obtain ⟨dsteps, did, hd1, hd2, hd3, hd4, hd5, hd6⟩ :=
        createDepthTexture_run d fb2.mWidth fb2.mHeight t2
      simp only
      rw [GLM.run_bind]
      rcases hrun3 : Framebuffer.createDepthTexture d fb2.mWidth fb2.mHeight t2 with ⟨r3, t3⟩
      rw [hrun3] at hd1 hd5 hd6
      simp only at hd1 hd5 hd6
      rw [p1, p2] at hd2 hd3
      have hpre : ∀ e ∈ bsteps ++ new ++ dsteps, InitStep fb.mWidth fb.mHeight e := by
        intro e he
        rcases List.mem_append.mp he with h | h
        · rcases List.mem_append.mp h with h | h
          · exact hbsteps e h
          · exact hstep e h
        · exact hd2 e h
      have ht3 : t3 = t ++ (bsteps ++ new ++ dsteps) := by
        simp only [hd1, hnew, hb1, List.append_assoc]
      cases r3 with
      | error err =>
        exact ⟨bsteps ++ new ++ dsteps, hpre, Or.inl ⟨ht3, ⟨err, rfl⟩, fun hno => by cases hd6 hno⟩⟩
      | ok depth =>
        have hdepth := hd5 depth rfl
        subst hdepth
        refine ⟨bsteps ++ new ++ dsteps, hpre, Or.inr ?_⟩
        have hatt : AllAttached fb.mColorAttachmentDescriptions.length
            (bsteps ++ new ++ dsteps) := by
          refine ⟨?_, did, List.mem_append_right _ hd4⟩
          intro j hj
          obtain ⟨id, -, -, q3⟩ := p9 j (Nat.zero_le _) (by omega) hj
          exact ⟨id, List.mem_append_left _ (List.mem_append_right _ q3)⟩
        have hinit : InitPost fb { fb2 with mDepthTexture := some ⟨⟨did⟩⟩ }
            (bsteps ++ new ++ dsteps) := by
          refine ⟨p1, p2, p4, p7, ?_, did, rfl, List.mem_append_right _ hd3⟩
          intro j hj
          obtain ⟨id, q1, q2, -⟩ := p9 j (Nat.zero_le _) (by omega) hj
          exact ⟨id, q1, List.mem_append_left _ (List.mem_append_right _ q2)⟩
        obtain ⟨usteps, hu1, hu0, hu2⟩ := GL_CHECK_spec d
          (GLCall.glBindFramebuffer GL_DRAW_FRAMEBUFFER 0)
          (t3 ++ [⟨GLCall.glCheckFramebufferStatus GL_FRAMEBUFFER,
            d.respond t3 (GLCall.glCheckFramebufferStatus GL_FRAMEBUFFER)⟩])
        have hust := GL_CHECK_bind_steps fb.mWidth fb.mHeight _ _ usteps hu0
        simp only
        rw [GLM.run_bind]
        unfold Framebuffer.checkStatus
        rw [GLM.run_bind, GLM.run_call]
        simp only
        by_cases hs : d.respond t3 (GLCall.glCheckFramebufferStatus GL_FRAMEBUFFER) =
            GL_FRAMEBUFFER_COMPLETE
        · rw [if_neg (not_not.mpr hs), GLM.run_pure]
          simp only
          rw [GLM.run_bind]
          unfold Framebuffer.unbind
          rcases hrun4 : GL_CHECK d (GLCall.glBindFramebuffer GL_DRAW_FRAMEBUFFER 0)
            (t3 ++ [⟨GLCall.glCheckFramebufferStatus GL_FRAMEBUFFER,
              d.respond t3 (GLCall.glCheckFramebufferStatus GL_FRAMEBUFFER)⟩]) with ⟨r4, t4⟩
          rw [hrun4] at hu1 hu2
          rw [hrun4]
          simp only at hu1 hu2
          refine ⟨d.respond t3 (GLCall.glCheckFramebufferStatus GL_FRAMEBUFFER), usteps, ?_, hust,
            by rw [ht3], hatt, ?_, ?_, ?_⟩
          · cases r4 <;> simp [hu1, ht3, GLM.run_pure]
          · intro hne
            exact absurd hs hne
          · intro fb1 hfb1
            refine ⟨hs, ?_⟩
            cases r4 with
            | error err => cases hfb1
            | ok u4 =>
              simp only [GLM.run_pure, Except.ok.injEq] at hfb1
              subst hfb1
              exact hinit
          · intro hno _
            have h4 := hu2 hno
            subst h4
            exact ⟨_, rfl⟩
        · rw [if_pos hs]
          refine ⟨d.respond t3 (GLCall.glCheckFramebufferStatus GL_FRAMEBUFFER), [], ?_, by simp,
            by rw [ht3], hatt, ?_, ?_, ?_⟩
          · simp [GLM.throw, ht3]
          · intro _
            rfl
          · intro fb1 hfb1
            cases hfb1
          · intro _ hc
            exact absurd hc hs

theorem construct_spec (d : Driver) (w h : Int) (descs : List CADescription) (t : List GLEvent) :
    ∃ pre, (∀ e ∈ pre, InitStep w h e) ∧
      InitOutcome d ⟨w, h, ⟨d.respond t GLCall.createFramebuffer⟩, descs, [], ⟨0⟩, none⟩ t
        (Framebuffer.construct d w h descs t) pre := by
  obtain ⟨pre, hpre, hout⟩ := init_spec d
    ⟨w, h, ⟨d.respond t GLCall.createFramebuffer⟩, descs, [], ⟨0⟩, none⟩
    (t ++ [⟨GLCall.createFramebuffer, d.respond t GLCall.createFramebuffer⟩])
  have hrun : Framebuffer.construct d w h descs t =
      Framebuffer.init d ⟨w, h, ⟨d.respond t GLCall.createFramebuffer⟩, descs, [], ⟨0⟩, none⟩
        (t ++ [⟨GLCall.createFramebuffer, d.respond t GLCall.createFramebuffer⟩]) := rfl
  rw [hrun]
  refine ⟨⟨GLCall.createFramebuffer, d.respond t GLCall.createFramebuffer⟩ :: pre, ?_, ?_⟩
  · intro e he
    rcases List.mem_cons.mp he with rfl | h
    · exact initStep_createFramebuffer _ _ _
    · exact hpre e h
  · rcases hout with ⟨h1, h2, h3⟩ | ⟨s, post, h1, h2, h3, ⟨h4, h5⟩, h6, h7, h8⟩
    · exact Or.inl ⟨by simpa using h1, h2, h3⟩
    · refine Or.inr ⟨s, post, by simpa using h1, h2, by simpa using h3, ⟨?_, ?_⟩, h6, ?_, h8⟩
      · intro j hj
        obtain ⟨tex, htex⟩ := h4 j hj
        exact ⟨tex, List.mem_cons_of_mem _ htex⟩
      · obtain ⟨tex, htex⟩ := h5
        exact ⟨tex, List.mem_cons_of_mem _ htex⟩
      · intro fb1 hfb1
        obtain ⟨q0, q1, q2, q3, q4, q5, id, q6, q7⟩ := h7 fb1 hfb1
        refine ⟨q0, q1, q2, q3, q4, ?_, id, q6, List.mem_cons_of_mem _ q7⟩
        intro j hj
        obtain ⟨id1, r1, r2⟩ := q5 j hj
        exact ⟨id1, r1, List.mem_cons_of_mem _ r2⟩

theorem intToSizeT_of_nonneg (i : Int) (h0 : 0 ≤ i) (h1 : i < 2 ^ 31) :
    intToSizeT i = i.toNat := by
  unfold intToSizeT
  rw [Int.emod_eq_of_lt h0 (by omega)]

theorem setDrawBuffersLoop_spec :
    ∀ (k i : Nat) (l : List Nat),
      (Framebuffer.setDrawBuffersLoop k i l).length = l.length ∧
      ∀ j, (Framebuffer.setDrawBuffersLoop k i l)[j]? =
        if i ≤ j ∧ j < i + k ∧ j < l.length then some (GL_COLOR_ATTACHMENT0 + j) else l[j]? := by
  intro k
  induction k with
  | zero =>
    intro i l
    refine ⟨rfl, ?_⟩
    intro j
    rw [if_neg (by omega)]
    rfl
  | succ k ih =>
    intro i l
    obtain ⟨h1, h2⟩ := ih (i + 1) (l.set i (GL_COLOR_ATTACHMENT0 + i))
    rw [Framebuffer.setDrawBuffersLoop]
    refine ⟨by rw [h1, List.length_set], ?_⟩
    intro j
    rw [h2 j, List.length_set, List.getElem?_set]
    by_cases hij : i = j
    · subst hij
      by_cases hlen : i < l.length
      · rw [if_neg (by omega), if_pos rfl, if_pos hlen, if_pos (by omega)]
      · rw [if_neg (by omega), if_pos rfl, if_neg hlen, if_neg (by omega)]
        exact (List.getElem?_eq_none (by omega)).symm
    · rw [if_neg hij]
      by_cases hc : i + 1 ≤ j ∧ j < i + 1 + k ∧ j < l.length
      · rw [if_pos hc, if_pos (by omega)]
      · rw [if_neg hc, if_neg (by omega)]

/-- C1. `getColorAttachment(idx)` on a target with `n` colour attachments throws
the invalid-index error exactly when `idx < 0` or `idx >= n` (and throws nothing
else); for `0 <= idx < n` it returns the attachment stored at position `idx`.
The index ranges over the values of a C++ `int`. -/
theorem getColorAttachment_invalid_index_iff (fb : Framebuffer) (aIdx : Int)
    (hint : -(2 : Int) ^ 31 ≤ aIdx ∧ aIdx < 2 ^ 31) :
    (fb.getColorAttachment aIdx =
        Except.error ⟨"Framebuffer - invalid color attachment index."⟩ ↔
      aIdx < 0 ∨ (fb.mColorAttachments.length : Int) ≤ aIdx) ∧
    ((∃ e, fb.getColorAttachment aIdx = Except.error e) ↔
      aIdx < 0 ∨ (fb.mColorAttachments.length : Int) ≤ aIdx) ∧
    (0 ≤ aIdx → aIdx < fb.mColorAttachments.length →
      ∃ p, fb.mColorAttachments[aIdx.toNat]? = some p ∧
        fb.getColorAttachment aIdx = Except.ok p) := by
  have hcond : (aIdx < 0 ∨ intToSizeT aIdx ≥ fb.mColorAttachments.length) ↔
      (aIdx < 0 ∨ (fb.mColorAttachments.length : Int) ≤ aIdx) := by
    constructor
    · rintro (h | h)
      · exact Or.inl h
      · by_cases hneg : aIdx < 0
        · exact Or.inl hneg
        · rw [intToSizeT_of_nonneg aIdx (by omega) hint.2] at h
          exact Or.inr (by omega)
    · rintro (h | h)
      · exact Or.inl h
      · by_cases hneg : aIdx < 0
        · exact Or.inl hneg
        · rw [intToSizeT_of_nonneg aIdx (by omega) hint.2]
          exact Or.inr (by omega)
  unfold Framebuffer.getColorAttachment
  refine ⟨?_, ?_, ?_⟩
  · constructor
    · intro h
      by_contra hc
      rw [if_neg (fun h1 => hc (hcond.mp h1))] at h
      cases h
    · intro h
      rw [if_pos (hcond.mpr h)]
  · constructor
    · rintro ⟨e, h⟩
      by_contra hc
      rw [if_neg (fun h1 => hc (hcond.mp h1))] at h
      cases h
    · intro h
      rw [if_pos (hcond.mpr h)]
      exact ⟨_, rfl⟩
  · intro h0 hlt
    have hnot : ¬ (aIdx < 0 ∨ intToSizeT aIdx ≥ fb.mColorAttachments.length) := by
      intro h1
      rcases hcond.mp h1 with h2 | h2 <;> omega
    rw [if_neg hnot, intToSizeT_of_nonneg aIdx h0 hint.2]
    have hnat : aIdx.toNat < fb.mColorAttachments.length := by omega
    refine ⟨fb.mColorAttachments[aIdx.toNat], List.getElem?_eq_getElem hnat, ?_⟩
    rw [List.getD_eq_getElem?_getD, List.getElem?_eq_getElem hnat]
    rfl

/-- C10. `setDrawBuffers()` on a target with `n` colour attachment descriptors
hands `glDrawBuffers` a list of length exactly `n` whose `i`-th entry is
`GL_COLOR_ATTACHMENT0 + i` for every `i < n`; the list has no duplicates. -/
theorem setDrawBuffers_declares_each_attachment (fb : Framebuffer) (t : List GLEvent) :
    fb.setDrawBuffers t =
      (Except.ok (), t ++ [⟨GLCall.glDrawBuffers fb.mColorAttachmentDescriptions.length
        fb.drawBuffers, 0⟩]) ∧
    fb.drawBuffers.length = fb.mColorAttachmentDescriptions.length ∧
    (∀ i, i < fb.mColorAttachmentDescriptions.length →
      fb.drawBuffers[i]? = some (GL_COLOR_ATTACHMENT0 + i)) ∧
    fb.drawBuffers.Nodup := by
  obtain ⟨h1, h2⟩ := setDrawBuffersLoop_spec fb.mColorAttachmentDescriptions.length 0
    (vectorResize 0 fb.mColorAttachmentDescriptions.length [])
  rw [vectorResize_length] at h1
  have hlen : fb.drawBuffers.length = fb.mColorAttachmentDescriptions.length := h1
  have hget : ∀ i, i < fb.mColorAttachmentDescriptions.length →
      fb.drawBuffers[i]? = some (GL_COLOR_ATTACHMENT0 + i) := by
    intro i hi
    have := h2 i
    rw [vectorResize_length, if_pos (by omega)] at this
    exact this
  refine ⟨?_, hlen, hget, ?_⟩
  · unfold Framebuffer.setDrawBuffers GLM.callVoid
    rw [hlen]
  · rw [List.nodup_iff_injective_getElem]
    intro a b hab
    have ha := hget a.1 (by have := a.2; omega)
    have hb := hget b.1 (by have := b.2; omega)
    rw [List.getElem?_eq_getElem a.2] at ha
    rw [List.getElem?_eq_getElem b.2] at hb
    simp only [Option.some.injEq] at ha hb
    have : a.1 = b.1 := by
      have h3 : fb.drawBuffers[a.1] = fb.drawBuffers[b.1] := hab
      rw [ha, hb] at h3
      omega
    exact Fin.ext this

theorem issued_eq {α : Type} (t new : List GLEvent) (run : Except OpenGLError α × List GLEvent)
    (h : run.2 = t ++ new) : issued t run = new := by
  unfold issued
  rw [h, List.drop_left]

theorem getD_of_getElem? (descs : List CADescription) (i : Nat) (desc : CADescription)
    (h : descs[i]? = some desc) : descs.getD i ⟨0, 0, 0⟩ = desc := by
  rw [List.getD_eq_getElem?_getD, h]
  rfl

/-- C9. Every successfully constructed target of size `(w, h)` records that
size, every texture its constructor created was created with exactly `(w, h)`,
and each colour attachment and the depth attachment is one of those textures. -/
theorem construct_attachments_share_size (d : Driver) (w h : Int)
    (descs : List CADescription) (t : List GLEvent) (fb : Framebuffer)
    (hok : (Framebuffer.construct d w h descs t).1 = Except.ok fb) :
    fb.mWidth = w ∧ fb.mHeight = h ∧
    (∀ e ∈ issued t (Framebuffer.construct d w h descs t), ∀ w1 h1 f g ty,
      e.call = GLCall.createColorTexture w1 h1 f g ty → w1 = w ∧ h1 = h) ∧
    (∀ (i : Nat) (desc : CADescription), descs[i]? = some desc →
      ∃ id, fb.mColorAttachments[i]? = some (some ⟨⟨id⟩⟩) ∧
        (⟨GLCall.createColorTexture w h desc.internalFormat desc.format desc.type, id⟩ :
          GLEvent) ∈ issued t (Framebuffer.construct d w h descs t)) ∧
    (∃ id, fb.getDepthTexture = some ⟨⟨id⟩⟩ ∧
      (⟨GLCall.createColorTexture w h GL_DEPTH_COMPONENT24 GL_DEPTH_COMPONENT GL_FLOAT, id⟩ :
        GLEvent) ∈ issued t (Framebuffer.construct d w h descs t)) := by
  obtain ⟨pre, hpre, hout⟩ := construct_spec d w h descs t
  rcases hout with ⟨-, ⟨err, h2⟩, -⟩ | ⟨s, post, h1, h2, -, -, -, h7, -⟩
  · rw [hok] at h2
    cases h2
  · obtain ⟨-, q1, q2, -, -, q4, id, q5, q6⟩ := h7 fb hok
    simp only at q1 q2 q4 q5 q6 h2
    have hiss := issued_eq t _ _ (by rw [h1, List.append_assoc])
    rw [hiss]
    refine ⟨q1, q2, ?_, ?_, id, q5, List.mem_append_left _ q6⟩
    · intro e he w1 h1 f g ty hcall
      rcases List.mem_append.mp he with hm | hm
      · exact (hpre e hm).1 w1 h1 f g ty hcall
      · rcases List.mem_cons.mp hm with rfl | hm
        · cases hcall
        · exact (h2 e hm).1 w1 h1 f g ty hcall
    · intro i desc hdesc
      have hlt : i < descs.length := by
        by_contra hc
        rw [List.getElem?_eq_none (by omega)] at hdesc
        cases hdesc
      obtain ⟨id1, r1, r2⟩ := q4 i hlt
      rw [getD_of_getElem? descs i desc hdesc] at r2
      exact ⟨id1, r1, List.mem_append_left _ r2⟩

/-- C3. In every run of the constructor, a status check that is issued comes
after a texture has been attached to every colour attachment point and to the
depth attachment point; if it reports anything but complete, the constructor
throws "Framebuffer is not complete!" and returns no object; a returned object
implies that the check reported complete.  On a driver that reports no error the
check is always reached. -/
theorem construct_incomplete_throws (d : Driver) (w h : Int)
    (descs : List CADescription) (t : List GLEvent) :
    (∀ s, (⟨GLCall.glCheckFramebufferStatus GL_FRAMEBUFFER, s⟩ : GLEvent) ∈
        issued t (Framebuffer.construct d w h descs t) → s ≠ GL_FRAMEBUFFER_COMPLETE →
      (Framebuffer.construct d w h descs t).1 =
        Except.error ⟨"Framebuffer is not complete!"⟩) ∧
    (∀ s, (⟨GLCall.glCheckFramebufferStatus GL_FRAMEBUFFER, s⟩ : GLEvent) ∈
        issued t (Framebuffer.construct d w h descs t) →
      ∃ pre post, issued t (Framebuffer.construct d w h descs t) =
          pre ++ ⟨GLCall.glCheckFramebufferStatus GL_FRAMEBUFFER, s⟩ :: post ∧
        AllAttached descs.length pre) ∧
    (∀ fb, (Framebuffer.construct d w h descs t).1 = Except.ok fb →
      (⟨GLCall.glCheckFramebufferStatus GL_FRAMEBUFFER, GL_FRAMEBUFFER_COMPLETE⟩ : GLEvent) ∈
        issued t (Framebuffer.construct d w h descs t)) ∧
    ((∀ t1, d.respond t1 GLCall.glGetError = GL_NO_ERROR) →
      ∃ s, (⟨GLCall.glCheckFramebufferStatus GL_FRAMEBUFFER, s⟩ : GLEvent) ∈
        issued t (Framebuffer.construct d w h descs t)) := by
  obtain ⟨pre, hpre, hout⟩ := construct_spec d w h descs t
  rcases hout with ⟨h1, ⟨err, h2⟩, h3⟩ | ⟨s0, post, h1, h2, -, h4, h6, h7, -⟩
  · have hiss := issued_eq t _ _ h1
    rw [hiss]
    have hnone : ∀ s, (⟨GLCall.glCheckFramebufferStatus GL_FRAMEBUFFER, s⟩ : GLEvent) ∉ pre := by
      intro s hs
      exact (hpre _ hs).2 GL_FRAMEBUFFER rfl
    refine ⟨fun s hs => absurd hs (hnone s), fun s hs => absurd hs (hnone s), ?_,
      fun hno => absurd hno h3⟩
    intro fb hfb
    rw [hfb] at h2
    cases h2
  · have hiss := issued_eq t _ _ (by rw [h1, List.append_assoc])
    rw [hiss]
    simp only at h2 h4
    have hs0 : ∀ s, (⟨GLCall.glCheckFramebufferStatus GL_FRAMEBUFFER, s⟩ : GLEvent) ∈
        pre ++ ⟨GLCall.glCheckFramebufferStatus GL_FRAMEBUFFER, s0⟩ :: post → s = s0 := by
      intro s hs
      rcases List.mem_append.mp hs with hm | hm
      · exact absurd rfl ((hpre _ hm).2 GL_FRAMEBUFFER)
      · rcases List.mem_cons.mp hm with heq | hm
        · simp only [GLEvent.mk.injEq, true_and] at heq
          exact heq
        · exact absurd rfl ((h2 _ hm).2 GL_FRAMEBUFFER)
    refine ⟨?_, ?_, ?_, fun _ => ⟨s0, by simp⟩⟩
    · intro s hs hne
      rw [hs0 s hs] at hne
      exact h6 hne
    · intro s hs
      rw [hs0 s hs]
      exact ⟨pre, post, rfl, h4⟩
    · intro fb hfb
      rw [← (h7 fb hfb).1]
      simp

/-! ## The frame loop body -/

theorem GLM.callVoid_bind {β : Type} (c : GLCall) (f : Unit → GLM β) (t : List GLEvent) :
    (GLM.callVoid c >>= f) t = f () (t ++ [⟨c, 0⟩]) := rfl

theorem GLM.call_bind {β : Type} (d : Driver) (c : GLCall) (f : Nat → GLM β) (t : List GLEvent) :
    (GLM.call d c >>= f) t = f (d.respond t c) (t ++ [⟨c, d.respond t c⟩]) := rfl

theorem GLM.callRenderer_bind {β : Type} (d : Driver) (c : GLCall) (f : Unit → GLM β)
    (t : List GLEvent) :
    (GLM.callRenderer d c >>= f) t =
      if d.respond t c = 0 then f () (t ++ [⟨c, 0⟩])
      else (Except.error ⟨"renderer failure"⟩, t ++ [⟨c, d.respond t c⟩]) := by
  rw [GLM.run_bind]
  unfold GLM.callRenderer
  by_cases h : d.respond t c = 0
  · simp [h]
  · simp [h]

theorem issued_append {α : Type} (t new : List GLEvent) (r : Except OpenGLError α) :
    issued t (r, t ++ new) = new := by
  unfold issued
  simp

theorem GLM.bind_bind {α β γ : Type} (m : GLM α) (f : α → GLM β) (g : β → GLM γ) :
    (m >>= f >>= g) = m >>= fun a => f a >>= g := by
  funext t
  simp only [GLM.run_bind]
  rcases m t with ⟨r | r, t1⟩ <;> rfl

theorem GLM.pure_bind {α β : Type} (a : α) (f : α → GLM β) :
    (Pure.pure a >>= f) = f a := rfl

/-- C6. One frame issues the passes in the order shadow, geometry, composite,
DoF and each once: the passes drawn are always an initial part of that sequence
(a failing renderer pass ends the frame), and the whole of it in every frame that
runs to its end.  The composite pass is issued with the compositing framebuffer
bound as draw destination, the DoF draw with framebuffer 0 bound, and the DoF draw
is the last call of the frame.  When no renderer method fails the frame runs to
its end. -/
theorem frameBody_pass_order (d : Driver) (res : DofResources) (config : Config)
    (t : List GLEvent) (bound : Option Nat) :
    passLog bound (issued t (frameBody d res config t)) <+:
      [(Pass.shadow, bound), (Pass.geometry, none),
        (Pass.composite, some res.compositingFBO), (Pass.dof, some 0)] ∧
    ((frameBody d res config t).1 = Except.ok () →
      passLog bound (issued t (frameBody d res config t)) =
        [(Pass.shadow, bound), (Pass.geometry, none),
          (Pass.composite, some res.compositingFBO), (Pass.dof, some 0)] ∧
      (issued t (frameBody d res config t)).getLast? =
        some ⟨GLCall.glDrawArrays GL_TRIANGLES 0 3, 0⟩) ∧
    (RendererReturns d → (frameBody d res config t).1 = Except.ok ()) := by
  unfold frameBody fullscreenQuadDraw setUniform1f setUniform1i
  generalize (if config.debugDepth = true then (1 : Int) else 0) = debugDepth
  simp only [GLM.bind_bind, GLM.callVoid_bind, GLM.call_bind, GLM.callRenderer_bind,
    List.append_assoc, List.singleton_append, List.cons_append, List.nil_append]
  split_ifs with h1 h2 h3 h4
  · simp [GLM.callVoid, issued_append, passLog, passOf, drawTargetAfter]
  · refine ⟨?_, ?_, ?_⟩
    · simp [issued_append, passLog, passOf, drawTargetAfter]
    · intro h
      cases h
    · intro h
      exact absurd (h _).2.2.2.1 h4
  · refine ⟨?_, ?_, ?_⟩
    · simp [issued_append, passLog, passOf, drawTargetAfter]
    · intro h
      cases h
    · intro h
      exact absurd ((h _).2.2.1 _ _) h3
  · refine ⟨?_, ?_, ?_⟩
    · simp [issued_append, passLog, passOf, drawTargetAfter]
    · intro h
      cases h
    · intro h
      exact absurd (h _).2.1 h2
  · refine ⟨?_, ?_, ?_⟩
    · simp [issued_append, passLog, passOf, drawTargetAfter]
    · intro h
      cases h
    · intro h
      exact absurd ((h _).1 _) h1

/-! ## The compositing target: completeness and resize -/

/-- C5 (the code at the failing input). With a driver that reports the compositing
framebuffer incomplete, the setup writes "Compositing FBO not complete!" to the
error stream and returns normally; `main` goes on to the frame loop, returns
normally after a frame, and that frame draws the composite pass into the
incomplete framebuffer. -/
theorem compositing_incomplete_is_not_fatal :
    (∃ res, (setupCompositing incompleteDriver (800, 600) 1 2 []).1 = Except.ok res ∧
      res.compositingFBO = 1) ∧
    (⟨GLCall.glCheckFramebufferStatus GL_FRAMEBUFFER, GL_FRAMEBUFFER_INCOMPLETE_ATTACHMENT⟩ :
      GLEvent) ∈ (setupCompositing incompleteDriver (800, 600) 1 2 []).2 ∧
    (⟨GLCall.cerr "Compositing FBO not complete!", 0⟩ : GLEvent) ∈
      (setupCompositing incompleteDriver (800, 600) 1 2 []).2 ∧
    (mainFromCompositing incompleteDriver (800, 600) 1 2 {} 1 []).1 = Except.ok () ∧
    passLog none (mainFromCompositing incompleteDriver (800, 600) 1 2 {} 1 []).2 =
      [(Pass.shadow, none), (Pass.geometry, none), (Pass.composite, some 1),
        (Pass.dof, some 0)] := by
  unfold mainFromCompositing runLoop runLoop frameBody setupCompositing fullscreenQuadDraw
    setUniform1f setUniform1i
  simp only [GLM.bind_bind, GLM.callVoid_bind, GLM.call_bind, GLM.callRenderer_bind,
    List.append_assoc, List.singleton_append, List.cons_append, List.nil_append]
  simp [incompleteDriver, okDriver, GL_FRAMEBUFFER_INCOMPLETE_ATTACHMENT, GL_FRAMEBUFFER_COMPLETE,
    GLM.bind_bind, GLM.pure_bind, GLM.callVoid_bind, GLM.call_bind, GLM.callRenderer_bind,
    GLM.run_pure, GLM.callVoid, passLog, passOf, drawTargetAfter]

/-- C4 (the code at the failing input). The window is 800 x 600 when `main` sets
up the compositing target and is then resized to 1024 x 768.  The resize handler
returns normally and re-initialises the renderer with 1024 x 768, but the
compositing colour texture keeps its 800 x 600 storage, and the DoF pass of the
next frame samples that texture. -/
theorem resize_keeps_compositing_texture_size :
    (setupCompositing okDriver (800, 600) 1 2 []).1 = Except.ok ⟨1, 2, 1, 2, 12, 13⟩ ∧
    textureSize 2 (setupCompositing okDriver (800, 600) 1 2 []).2 = some (800, 600) ∧
    (onResize okDriver 1024 768 (setupCompositing okDriver (800, 600) 1 2 []).2).1 =
      Except.ok () ∧
    (⟨GLCall.rendererInitialize 1024 768, 0⟩ : GLEvent) ∈
      (onResize okDriver 1024 768 (setupCompositing okDriver (800, 600) 1 2 []).2).2 ∧
    textureSize 2 (onResize okDriver 1024 768 (setupCompositing okDriver (800, 600) 1 2 []).2).2 =
      some (800, 600) ∧
    (⟨GLCall.glBindTexture GL_TEXTURE_2D 2, 0⟩ : GLEvent) ∈
      issued (onResize okDriver 1024 768 (setupCompositing okDriver (800, 600) 1 2 []).2).2
        (frameBody okDriver ⟨1, 2, 1, 2, 12, 13⟩ {}
          (onResize okDriver 1024 768 (setupCompositing okDriver (800, 600) 1 2 []).2).2) := by
  unfold frameBody onResize setupCompositing fullscreenQuadDraw setUniform1f setUniform1i
  simp only [GLM.bind_bind, GLM.callVoid_bind, GLM.call_bind, GLM.callRenderer_bind,
    List.append_assoc, List.singleton_append, List.cons_append, List.nil_append]
  simp [okDriver, GL_FRAMEBUFFER_COMPLETE, issued, textureSize, textureStep,
    GLM.bind_bind, GLM.pure_bind, GLM.callVoid_bind, GLM.call_bind, GLM.callRenderer_bind,
    GLM.run_pure, GLM.callVoid, GLM.callRenderer]

/-! ## The key callback: focus distance and focus range -/

theorem roundHalfEven_intCast (z : ℤ) : roundHalfEven (z : ℚ) = z := by
  unfold roundHalfEven
  rw [Int.floor_intCast, sub_self, if_pos (by norm_num)]

theorem f32Exponent_le (n : ℤ) (h : |n| < 2 ^ 24) : f32Exponent (n : ℚ) ≤ 23 := by
  unfold f32Exponent
  apply max_le _ (by norm_num)
  by_cases h0 : n = 0
  · subst h0
    simp
  · have hpos : (0 : ℚ) < |(n : ℚ)| := abs_pos.mpr (by exact_mod_cast h0)
    have hlt : |(n : ℚ)| < ((2 : ℕ) : ℚ) ^ (24 : ℤ) := by
      have : ((|n| : ℤ) : ℚ) < ((2 ^ 24 : ℤ) : ℚ) := by exact_mod_cast h
      rw [Int.cast_abs] at this
      norm_num at this ⊢
      exact this
    have := (Int.lt_zpow_iff_log_lt (R := ℚ) (b := 2) (by norm_num) hpos).mp hlt
    omega

/-- Integers below `2 ^ 24` in magnitude are `float` values: rounding keeps them. -/
theorem roundF32_intCast (n : ℤ) (h : |n| < 2 ^ 24) : roundF32 (n : ℚ) = n := by
  have hle := f32Exponent_le n h
  have hge : -126 ≤ f32Exponent (n : ℚ) := le_max_right _ _
  unfold roundF32
  generalize f32Exponent (n : ℚ) = e at hle hge
  obtain ⟨k, hk⟩ : ∃ k : ℕ, e - 23 = -(k : ℤ) := ⟨(23 - e).toNat, by omega⟩
  rw [hk, zpow_neg, zpow_natCast, div_inv_eq_mul]
  have : (n : ℚ) * 2 ^ k = ((n * 2 ^ k : ℤ) : ℚ) := by push_cast; ring
  rw [this, roundHalfEven_intCast]
  push_cast
  field_simp

theorem glmMax_intCast (a b : ℤ) : glmMax (a : ℚ) (b : ℚ) = ((max a b : ℤ) : ℚ) := by
  unfold glmMax
  by_cases h : a < b
  · rw [if_pos (by exact_mod_cast h), max_eq_right (le_of_lt h)]
  · rw [if_neg (by exact_mod_cast h), max_eq_left (not_lt.mp h)]

theorem glmMin_intCast (a b : ℤ) : glmMin (a : ℚ) (b : ℚ) = ((min a b : ℤ) : ℚ) := by
  unfold glmMin
  by_cases h : b < a
  · rw [if_pos (by exact_mod_cast h), min_eq_right (le_of_lt h)]
  · rw [if_neg (by exact_mod_cast h), min_eq_left (not_lt.mp h)]

/-- A clamped decrement on a small integer value is computed exactly. -/
theorem clampedDecrement (lo step n : ℤ) (h : |n - step| < 2 ^ 24) :
    glmMax (lo : ℚ) (f32Sub (n : ℚ) (step : ℚ)) = ((max lo (n - step) : ℤ) : ℚ) := by
  unfold f32Sub
  rw [← Int.cast_sub, roundF32_intCast _ h, glmMax_intCast]

/-- A clamped increment on a small integer value is computed exactly. -/
theorem clampedIncrement (hi step n : ℤ) (h : |n + step| < 2 ^ 24) :
    glmMin (hi : ℚ) (f32Add (n : ℚ) (step : ℚ)) = ((min hi (n + step) : ℤ) : ℚ) := by
  unfold f32Add
  rw [← Int.cast_add, roundF32_intCast _ h, glmMin_intCast]

theorem keyCallback_Q (config : Config) (t : List GLEvent) :
    keyCallback config GLFW_KEY_Q GLFW_PRESS t =
      (Except.ok { config with focusDistance := glmMax 5 (f32Sub config.focusDistance 5) },
        t ++ [⟨GLCall.coutValue "Focus Distance: " (glmMax 5 (f32Sub config.focusDistance 5)),
          0⟩]) := by
  simp [keyCallback, GLFW_KEY_Q, GLFW_KEY_ENTER, GLFW_PRESS, GLM.callVoid_bind, GLM.run_pure]

theorem keyCallback_E (config : Config) (t : List GLEvent) :
    keyCallback config GLFW_KEY_E GLFW_PRESS t =
      (Except.ok { config with focusDistance := glmMin 100 (f32Add config.focusDistance 5) },
        t ++ [⟨GLCall.coutValue "Focus Distance: " (glmMin 100 (f32Add config.focusDistance 5)),
          0⟩]) := by
  simp [keyCallback, GLFW_KEY_Q, GLFW_KEY_E, GLFW_KEY_ENTER, GLFW_PRESS, GLM.callVoid_bind,
    GLM.run_pure]

theorem keyCallback_Z (config : Config) (t : List GLEvent) :
    keyCallback config GLFW_KEY_Z GLFW_PRESS t =
      (Except.ok { config with focusRange := glmMax 2 (f32Sub config.focusRange 2) },
        t ++ [⟨GLCall.coutValue "Focus Range: " (glmMax 2 (f32Sub config.focusRange 2)),
          0⟩]) := by
  simp [keyCallback, GLFW_KEY_Q, GLFW_KEY_E, GLFW_KEY_Z, GLFW_KEY_ENTER, GLFW_PRESS,
    GLM.callVoid_bind, GLM.run_pure]

theorem keyCallback_C (config : Config) (t : List GLEvent) :
    keyCallback config GLFW_KEY_C GLFW_PRESS t =
      (Except.ok { config with focusRange := glmMin 50 (f32Add config.focusRange 2) },
        t ++ [⟨GLCall.coutValue "Focus Range: " (glmMin 50 (f32Add config.focusRange 2)),
          0⟩]) := by
  simp [keyCallback, GLFW_KEY_Q, GLFW_KEY_E, GLFW_KEY_Z, GLFW_KEY_C, GLFW_KEY_ENTER, GLFW_PRESS,
    GLM.callVoid_bind, GLM.run_pure]

theorem focusDistance_dec_exact (n : ℤ) (h1 : 5 ≤ n) (h2 : n ≤ 100) :
    glmMax 5 (f32Sub (n : ℚ) 5) = ((max 5 (n - 5) : ℤ) : ℚ) := by
  have h := clampedDecrement 5 5 n (abs_lt.mpr ⟨by omega, by omega⟩)
  simp only [Int.cast_ofNat] at h
  exact h

theorem focusDistance_inc_exact (n : ℤ) (h1 : 5 ≤ n) (h2 : n ≤ 100) :
    glmMin 100 (f32Add (n : ℚ) 5) = ((min 100 (n + 5) : ℤ) : ℚ) := by
  have h := clampedIncrement 100 5 n (abs_lt.mpr ⟨by omega, by omega⟩)
  simp only [Int.cast_ofNat] at h
  exact h

theorem focusRange_dec_exact (m : ℤ) (h1 : 2 ≤ m) (h2 : m ≤ 50) :
    glmMax 2 (f32Sub (m : ℚ) 2) = ((max 2 (m - 2) : ℤ) : ℚ) := by
  have h := clampedDecrement 2 2 m (abs_lt.mpr ⟨by omega, by omega⟩)
  simp only [Int.cast_ofNat] at h
  exact h

theorem focusRange_inc_exact (m : ℤ) (h1 : 2 ≤ m) (h2 : m ≤ 50) :
    glmMin 50 (f32Add (m : ℚ) 2) = ((min 50 (m + 2) : ℤ) : ℚ) := by
  have h := clampedIncrement 50 2 m (abs_lt.mpr ⟨by omega, by omega⟩)
  simp only [Int.cast_ofNat] at h
  exact h

/-- The key callback never throws and keeps the focus parameters whole and in
range, whatever the key and the action. -/
theorem keyCallback_inv (config : Config) (key action : Int) (t : List GLEvent)
    (h : FocusInv config) :
    ∃ c, (keyCallback config key action t).1 = Except.ok c ∧ FocusInv c := by
  obtain ⟨⟨n, hn, hn1, hn2⟩, ⟨m, hm, hm1, hm2⟩⟩ := h
  unfold keyCallback
  split_ifs
  · exact ⟨_, rfl, ⟨n, hn, hn1, hn2⟩, ⟨m, hm, hm1, hm2⟩⟩
  · refine ⟨_, rfl, ⟨max 5 (n - 5), ?_, le_max_left _ _, max_le (by omega) (by omega)⟩,
      ⟨m, hm, hm1, hm2⟩⟩
    simp only [hn]
    exact focusDistance_dec_exact n hn1 hn2
  · refine ⟨_, rfl, ⟨min 100 (n + 5), ?_, le_min (by omega) (by omega), min_le_left _ _⟩,
      ⟨m, hm, hm1, hm2⟩⟩
    simp only [hn]
    exact focusDistance_inc_exact n hn1 hn2
  · refine ⟨_, rfl, ⟨n, hn, hn1, hn2⟩,
      ⟨max 2 (m - 2), ?_, le_max_left _ _, max_le (by omega) (by omega)⟩⟩
    simp only [hm]
    exact focusRange_dec_exact m hm1 hm2
  · refine ⟨_, rfl, ⟨n, hn, hn1, hn2⟩,
      ⟨min 50 (m + 2), ?_, le_min (by omega) (by omega), min_le_left _ _⟩⟩
    simp only [hm]
    exact focusRange_inc_exact m hm1 hm2
  · exact ⟨_, rfl, ⟨n, hn, hn1, hn2⟩, ⟨m, hm, hm1, hm2⟩⟩
  · exact ⟨_, rfl, ⟨n, hn, hn1, hn2⟩, ⟨m, hm, hm1, hm2⟩⟩
  · exact ⟨_, rfl, ⟨n, hn, hn1, hn2⟩, ⟨m, hm, hm1, hm2⟩⟩

theorem focusInv_default : FocusInv {} :=
  ⟨⟨50, by norm_num, by norm_num, by norm_num⟩, ⟨10, by norm_num, by norm_num, by norm_num⟩⟩

theorem pressKeys_inv :
    ∀ (events : List (Int × Int)) (config : Config) (t : List GLEvent), FocusInv config →
      ∃ c, (pressKeys events config t).1 = Except.ok c ∧ FocusInv c := by
  intro events
  induction events with
  | nil =>
    intro config t h
    exact ⟨config, rfl, h⟩
  | cons ev rest ih =>
    intro config t h
    obtain ⟨key, action⟩ := ev
    obtain ⟨c1, hc1, hinv1⟩ := keyCallback_inv config key action t h
    rw [pressKeys, GLM.run_bind]
    rcases hrun : keyCallback config key action t with ⟨r, t1⟩
    rw [hrun] at hc1
    simp only at hc1
    subst hc1
    exact ih c1 t1 hinv1

theorem pressKeys_replicate_Q :
    ∀ (k : Nat) (config : Config) (n : ℤ) (t : List GLEvent),
      config.focusDistance = n → 5 ≤ n → n ≤ 100 →
      ∃ c, (pressKeys (List.replicate k (GLFW_KEY_Q, GLFW_PRESS)) config t).1 = Except.ok c ∧
        c.focusDistance = ((max 5 (n - 5 * (k : ℤ)) : ℤ) : ℚ) ∧
        c.focusRange = config.focusRange := by
  intro k
  induction k with
  | zero =>
    intro config n t hn h1 h2
    refine ⟨config, rfl, ?_, rfl⟩
    rw [hn]
    congr 1
    simp only [Nat.cast_zero, mul_zero]
    omega
  | succ k ih =>
    intro config n t hn h1 h2
    rw [List.replicate_succ, pressKeys, GLM.run_bind, keyCallback_Q]
    simp only
    obtain ⟨c, hc1, hc2, hc3⟩ := ih
      { config with focusDistance := glmMax 5 (f32Sub config.focusDistance 5) }
      (max 5 (n - 5))
      (t ++ [⟨GLCall.coutValue "Focus Distance: "
        (glmMax 5 (f32Sub config.focusDistance 5)), 0⟩])
      (by simp only [hn]; exact focusDistance_dec_exact n h1 h2) (by omega) (by omega)
    refine ⟨c, hc1, ?_, hc3⟩
    rw [hc2]
    congr 1
    push_cast
    omega

theorem pressKeys_replicate_E :
    ∀ (k : Nat) (config : Config) (n : ℤ) (t : List GLEvent),
      config.focusDistance = n → 5 ≤ n → n ≤ 100 →
      ∃ c, (pressKeys (List.replicate k (GLFW_KEY_E, GLFW_PRESS)) config t).1 = Except.ok c ∧
        c.focusDistance = ((min 100 (n + 5 * (k : ℤ)) : ℤ) : ℚ) ∧
        c.focusRange = config.focusRange := by
  intro k
  induction k with
  | zero =>
    intro config n t hn h1 h2
    refine ⟨config, rfl, ?_, rfl⟩
    rw [hn]
    congr 1
    simp only [Nat.cast_zero, mul_zero]
    omega
  | succ k ih =>
    intro config n t hn h1 h2
    rw [List.replicate_succ, pressKeys, GLM.run_bind, keyCallback_E]
    simp only
    obtain ⟨c, hc1, hc2, hc3⟩ := ih
      { config with focusDistance := glmMin 100 (f32Add config.focusDistance 5) }
      (min 100 (n + 5))
      (t ++ [⟨GLCall.coutValue "Focus Distance: "
        (glmMin 100 (f32Add config.focusDistance 5)), 0⟩])
      (by simp only [hn]; exact focusDistance_inc_exact n h1 h2) (by omega) (by omega)
    refine ⟨c, hc1, ?_, hc3⟩
    rw [hc2]
    congr 1
    push_cast
    omega

theorem pressKeys_replicate_Z :
    ∀ (k : Nat) (config : Config) (n : ℤ) (t : List GLEvent),
      config.focusRange = n → 2 ≤ n → n ≤ 50 →
      ∃ c, (pressKeys (List.replicate k (GLFW_KEY_Z, GLFW_PRESS)) config t).1 = Except.ok c ∧
        c.focusRange = ((max 2 (n - 2 * (k : ℤ)) : ℤ) : ℚ) ∧
        c.focusDistance = config.focusDistance := by
  intro k
  induction k with
  | zero =>
    intro config n t hn h1 h2
    refine ⟨config, rfl, ?_, rfl⟩
    rw [hn]
    congr 1
    simp only [Nat.cast_zero, mul_zero]
    omega
  | succ k ih =>
    intro config n t hn h1 h2
    rw [List.replicate_succ, pressKeys, GLM.run_bind, keyCallback_Z]
    simp only
    obtain ⟨c, hc1, hc2, hc3⟩ := ih
      { config with focusRange := glmMax 2 (f32Sub config.focusRange 2) }
      (max 2 (n - 2))
      (t ++ [⟨GLCall.coutValue "Focus Range: "
        (glmMax 2 (f32Sub config.focusRange 2)), 0⟩])
      (by simp only [hn]; exact focusRange_dec_exact n h1 h2) (by omega) (by omega)
    refine ⟨c, hc1, ?_, hc3⟩
    rw [hc2]
    congr 1
    push_cast
    omega

theorem pressKeys_replicate_C :
    ∀ (k : Nat) (config : Config) (n : ℤ) (t : List GLEvent),
      config.focusRange = n → 2 ≤ n → n ≤ 50 →
      ∃ c, (pressKeys (List.replicate k (GLFW_KEY_C, GLFW_PRESS)) config t).1 = Except.ok c ∧
        c.focusRange = ((min 50 (n + 2 * (k : ℤ)) : ℤ) : ℚ) ∧
        c.focusDistance = config.focusDistance := by
  intro k
  induction k with
  | zero =>
    intro config n t hn h1 h2
    refine ⟨config, rfl, ?_, rfl⟩
    rw [hn]
    congr 1
    simp only [Nat.cast_zero, mul_zero]
    omega
  | succ k ih =>
    intro config n t hn h1 h2
    rw [List.replicate_succ, pressKeys, GLM.run_bind, keyCallback_C]
    simp only
    obtain ⟨c, hc1, hc2, hc3⟩ := ih
      { config with focusRange := glmMin 50 (f32Add config.focusRange 2) }
      (min 50 (n + 2))
      (t ++ [⟨GLCall.coutValue "Focus Range: "
        (glmMin 50 (f32Add config.focusRange 2)), 0⟩])
      (by simp only [hn]; exact focusRange_inc_exact n h1 h2) (by omega) (by omega)
    refine ⟨c, hc1, ?_, hc3⟩
    rw [hc2]
    congr 1
    push_cast
    omega

/-- C7. Starting from the initial configuration (focus distance 50), after any
finite sequence of key events the callback has not thrown and the focus
distance lies in `[5, 100]`; in every such state a press of the decrease key sets
it to `max(5, d - 5)` and a press of the increase key to `min(100, d + 5)`.
Seven decreases from 50 yield 15, and an increase from 95 yields 100. -/
theorem focusDistance_clamped_5_100 :
    (∀ (events : List (Int × Int)) (t : List GLEvent),
      ∃ c, (pressKeys events {} t).1 = Except.ok c ∧
        5 ≤ c.focusDistance ∧ c.focusDistance ≤ 100 ∧
        (∀ t1, ∃ c1, (keyCallback c GLFW_KEY_Q GLFW_PRESS t1).1 = Except.ok c1 ∧
          c1.focusDistance = max 5 (c.focusDistance - 5)) ∧
        (∀ t1, ∃ c1, (keyCallback c GLFW_KEY_E GLFW_PRESS t1).1 = Except.ok c1 ∧
          c1.focusDistance = min 100 (c.focusDistance + 5))) ∧
    (∀ t, ∃ c, (pressKeys (List.replicate 7 (GLFW_KEY_Q, GLFW_PRESS)) {} t).1 = Except.ok c ∧
      c.focusDistance = 15) ∧
    (∀ (config : Config) (t : List GLEvent), config.focusDistance = 95 →
      ∃ c1, (keyCallback config GLFW_KEY_E GLFW_PRESS t).1 = Except.ok c1 ∧
        c1.focusDistance = 100) := by
  refine ⟨?_, ?_, ?_⟩
  · intro events t
    obtain ⟨c, hc, ⟨n, hn, hn1, hn2⟩, -⟩ := pressKeys_inv events {} t focusInv_default
    refine ⟨c, hc, ?_, ?_, ?_, ?_⟩
    · rw [hn]; exact_mod_cast hn1
    · rw [hn]; exact_mod_cast hn2
    · intro t1
      rw [keyCallback_Q]
      refine ⟨_, rfl, ?_⟩
      simp only [hn]
      rw [focusDistance_dec_exact n hn1 hn2]
      push_cast
      rfl
    · intro t1
      rw [keyCallback_E]
      refine ⟨_, rfl, ?_⟩
      simp only [hn]
      rw [focusDistance_inc_exact n hn1 hn2]
      push_cast
      rfl
  · intro t
    obtain ⟨c, hc1, hc2, -⟩ := pressKeys_replicate_Q 7 {} 50 t (by norm_num) (by norm_num)
      (by norm_num)
    refine ⟨c, hc1, ?_⟩
    rw [hc2]
    norm_num
  · intro config t h95
    rw [keyCallback_E]
    refine ⟨_, rfl, ?_⟩
    simp only [h95]
    have h := focusDistance_inc_exact 95 (by norm_num) (by norm_num)
    norm_num at h
    exact h

/-- C8. Starting from the initial configuration (focus range 10), after any
finite sequence of key events the callback has not thrown and the focus range
lies in `[2, 50]`, so it is never negative; in every such state a press of the
decrease key sets it to `max(2, r - 2)` and a press of the increase key to
`min(50, r + 2)`.  Six decreases from 10 yield exactly 2, and twenty or more
increases from 10 yield 50. -/
theorem focusRange_clamped_2_50 :
    (∀ (events : List (Int × Int)) (t : List GLEvent),
      ∃ c, (pressKeys events {} t).1 = Except.ok c ∧
        2 ≤ c.focusRange ∧ c.focusRange ≤ 50 ∧ 0 ≤ c.focusRange ∧
        (∀ t1, ∃ c1, (keyCallback c GLFW_KEY_Z GLFW_PRESS t1).1 = Except.ok c1 ∧
          c1.focusRange = max 2 (c.focusRange - 2)) ∧
        (∀ t1, ∃ c1, (keyCallback c GLFW_KEY_C GLFW_PRESS t1).1 = Except.ok c1 ∧
          c1.focusRange = min 50 (c.focusRange + 2))) ∧
    (∀ t, ∃ c, (pressKeys (List.replicate 6 (GLFW_KEY_Z, GLFW_PRESS)) {} t).1 = Except.ok c ∧
      c.focusRange = 2) ∧
    (∀ (k : Nat) (t : List GLEvent), 20 ≤ k →
      ∃ c, (pressKeys (List.replicate k (GLFW_KEY_C, GLFW_PRESS)) {} t).1 = Except.ok c ∧
        c.focusRange = 50) := by
  refine ⟨?_, ?_, ?_⟩
  · intro events t
    obtain ⟨c, hc, -, ⟨m, hm, hm1, hm2⟩⟩ := pressKeys_inv events {} t focusInv_default
    refine ⟨c, hc, ?_, ?_, ?_, ?_, ?_⟩
    · rw [hm]; exact_mod_cast hm1
    · rw [hm]; exact_mod_cast hm2
    · rw [hm]; exact_mod_cast (by omega : (0 : ℤ) ≤ m)
    · intro t1
      rw [keyCallback_Z]
      refine ⟨_, rfl, ?_⟩
      simp only [hm]
      rw [focusRange_dec_exact m hm1 hm2]
      push_cast
      rfl
    · intro t1
      rw [keyCallback_C]
      refine ⟨_, rfl, ?_⟩
      simp only [hm]
      rw [focusRange_inc_exact m hm1 hm2]
      push_cast
      rfl
  · intro t
    obtain ⟨c, hc1, hc2, -⟩ := pressKeys_replicate_Z 6 {} 10 t (by norm_num) (by norm_num)
      (by norm_num)
    refine ⟨c, hc1, ?_⟩
    rw [hc2]
    norm_num
  · intro k t hk
    obtain ⟨c, hc1, hc2, -⟩ := pressKeys_replicate_C k {} 10 t (by norm_num) (by norm_num)
      (by norm_num)
    refine ⟨c, hc1, ?_⟩
    rw [hc2]
    have : min (50 : ℤ) (10 + 2 * (k : ℤ)) = 50 := by omega
    rw [this]
    norm_num

/-! ## The theorems with hypotheses, applied to a concrete target -/

theorem getColorAttachment_invalid_index_iff_witness :
    (-(2 : Int) ^ 31 ≤ 0 ∧ (0 : Int) < 2 ^ 31) ∧
    ((sampleTarget.getColorAttachment 0 =
        Except.error ⟨"Framebuffer - invalid color attachment index."⟩ ↔
      (0 : Int) < 0 ∨ (sampleTarget.mColorAttachments.length : Int) ≤ 0) ∧
    ((∃ e, sampleTarget.getColorAttachment 0 = Except.error e) ↔
      (0 : Int) < 0 ∨ (sampleTarget.mColorAttachments.length : Int) ≤ 0) ∧
    ((0 : Int) ≤ 0 → (0 : Int) < sampleTarget.mColorAttachments.length →
      ∃ p, sampleTarget.mColorAttachments[(0 : Int).toNat]? = some p ∧
        sampleTarget.getColorAttachment 0 = Except.ok p)) :=
  ⟨by decide, getColorAttachment_invalid_index_iff sampleTarget 0 (by decide)⟩

theorem construct_attachments_share_size_witness :
    (Framebuffer.construct okDriver 800 600 [rgba16f] []).1 = Except.ok sampleTarget ∧
    (sampleTarget.mWidth = 800 ∧ sampleTarget.mHeight = 600 ∧
    (∀ e ∈ issued [] (Framebuffer.construct okDriver 800 600 [rgba16f] []), ∀ w1 h1 f g ty,
      e.call = GLCall.createColorTexture w1 h1 f g ty → w1 = 800 ∧ h1 = 600) ∧
    (∀ (i : Nat) (desc : CADescription), [rgba16f][i]? = some desc →
      ∃ id, sampleTarget.mColorAttachments[i]? = some (some ⟨⟨id⟩⟩) ∧
        (⟨GLCall.createColorTexture 800 600 desc.internalFormat desc.format desc.type, id⟩ :
          GLEvent) ∈ issued [] (Framebuffer.construct okDriver 800 600 [rgba16f] [])) ∧
    (∃ id, sampleTarget.getDepthTexture = some ⟨⟨id⟩⟩ ∧
      (⟨GLCall.createColorTexture 800 600 GL_DEPTH_COMPONENT24 GL_DEPTH_COMPONENT GL_FLOAT, id⟩ :
        GLEvent) ∈ issued [] (Framebuffer.construct okDriver 800 600 [rgba16f] []))) :=
  ⟨rfl, construct_attachments_share_size okDriver 800 600 [rgba16f] [] sampleTarget rfl⟩

end RGGPU
